import Mathlib

set_option maxHeartbeats 1000000

/-!
Verification of the LCOE engine (hooks/useLcoe.ts)

Shallow embedding of the nuclear-power-plant LCOE calculator.  JavaScript
floating-point numbers are modelled as real numbers; decimal literals are the
exact rationals they denote.  `Math.pow(x, t + 0.5)` for a natural `t` is
modelled as `x ^ t * Real.sqrt x`, which agrees with the JS value whenever the
base is nonnegative (for a negative base JS returns NaN, which has no faithful
real model).  `Math.round` is Mathlib `round` (both send x to ⌊x + 1/2⌋), and
the `Float64Array` of discount factors is modelled as a function `ℕ → ℝ`
whose entries below the array length are the array cells.
-/

/-- Model of `LcoeInputs` (types.ts).  All fields are JS numbers. -/
structure LcoeInputs where
  usefulLife : ℝ
  overnightCost : ℝ
  constructionTime : ℝ
  costOfEquity : ℝ
  costOfDebt : ℝ
  targetGearing : ℝ
  fuelCost : ℝ
  omCost : ℝ
  loadHours : ℝ
  decommissioningCost : ℝ
  rabProportion : ℝ
  inflationRate : ℝ
  extensionCapEx : ℝ

/-- Model of `LcoeResult` (types.ts); the three optional fields are `Option`. -/
structure LcoeResult where
  totalLcoe : ℝ
  occLcoe : ℝ
  financingLcoe : ℝ
  fuelLcoe : ℝ
  omLcoe : ℝ
  decommissioningLcoe : ℝ
  surchargedIdcLcoe : ℝ
  halfLcoe1 : Option ℝ := none
  halfLcoe2 : Option ℝ := none
  developerSalePrice : Option ℝ := none

/-- Result record of `calcNominalWacc`. -/
structure WaccParts where
  waccNomBlend : ℝ
  costOfDebtNom : ℝ
  costOfEquityNom : ℝ

/-- Model of `ConstructionResult` (useLcoe.ts). -/
structure ConstructionResult where
  pvOccSOC : ℝ
  pvFinancingSOC : ℝ
  pvCapexSOC : ℝ
  fvEconomicCOD : ℝ
  occRatioCOD : ℝ
  pvSurchargedIdcSOC : ℝ
  fvSurchargedCOD : ℝ

/-- `inflationMode : 'lump_sum' | 'dynamic'`. -/
inductive InflationMode where
  | lumpSum
  | dynamic

/-- `IdcMode = 'afudc_whole_wacc' | 'debt_only'`. -/
inductive IdcMode where
  | afudcWholeWacc
  | debtOnly

/-- `valuationPoint: 'soc' | 'cod'` in `AdvancedToggles`. -/
inductive ValuationPoint where
  | soc
  | cod

/-- Model of `AdvancedToggles` (types.ts). -/
structure AdvancedToggles where
  rabEnabled : Bool
  decliningWacc : Bool
  turnkey : Bool
  twoLives : Bool
  valuationPoint : ValuationPoint

noncomputable section

/-- `inputs.inflationRate / 100`, the `pi` local used throughout useLcoe.ts. -/
def piOf (inputs : LcoeInputs) : ℝ := inputs.inflationRate / 100

/-- `Math.min(Math.max(inputs.targetGearing, 0), 100) / 100` (useLcoe.ts line 23). -/
def gearingOf (inputs : LcoeInputs) : ℝ := min (max inputs.targetGearing 0) 100 / 100

/-- `calcNominalWacc` (useLcoe.ts lines 17-30): Fisher conversion of the real
debt and equity rates and gearing-weighted blending. -/
def calcNominalWacc (inputs : LcoeInputs) : WaccParts :=
  let pi := piOf inputs
  let gearing := gearingOf inputs
  let costOfDebtNom := (1 + inputs.costOfDebt / 100) * (1 + pi) - 1
  let costOfEquityNom := (1 + inputs.costOfEquity / 100) * (1 + pi) - 1
  { waccNomBlend := gearing * costOfDebtNom + (1 - gearing) * costOfEquityNom
    costOfDebtNom := costOfDebtNom
    costOfEquityNom := costOfEquityNom }

/-- `TL = Math.max(Math.round(usefulLife), 0)` as a natural number. -/
def TLof (inputs : LcoeInputs) : ℕ := (round inputs.usefulLife).toNat

/-- `Tc = Math.max(0, Math.round(constructionTime))` as a natural number. -/
def TcOf (inputs : LcoeInputs) : ℕ := (round inputs.constructionTime).toNat

/-- `baseKeNom`/`baseWacc` of `buildDfArray` (lines 59 and 74): the blended
nominal WACC obtained from the base (undeclined) real cost of equity. -/
def baseWaccOf (costOfEquityReal kdNom gearing pi : ℝ) : ℝ :=
  gearing * kdNom + (1 - gearing) * ((1 + costOfEquityReal) * (1 + pi) - 1)

/-- `getOpW` (useLcoe.ts lines 61-71): the per-operational-year blended nominal
rate, with the 3-tranche declining real cost of equity when `declining` is set
and the tranche length `L = ⌊TL / 3⌋` is positive. -/
def getOpW (costOfEquityReal kdNom gearing pi : ℝ) (L : ℕ) (declining : Bool)
    (opYear : ℕ) : ℝ :=
  let keReal : ℝ :=
    if declining = true ∧ 0 < L then
      if 2 * L < opYear then costOfEquityReal / 3
      else if L < opYear then costOfEquityReal * 2 / 3
      else costOfEquityReal
    else costOfEquityReal
  let keNom := (1 + keReal) * (1 + pi) - 1
  gearing * kdNom + (1 - gearing) * keNom

/-- The running `cumProduct` of `buildDfArray` as it stands when the loop body
for year `k` reads it: seeded with `tcOffset` years of base-WACC compounding
(lines 75-78) and advanced by `1 + w` after each factor is emitted (line 83). -/
def dfCumProduct (costOfEquityReal kdNom gearing pi : ℝ) (L : ℕ) (declining : Bool)
    (tcOffset : ℕ) : ℕ → ℝ
  | 0 => (1 + baseWaccOf costOfEquityReal kdNom gearing pi) ^ tcOffset
  | k + 1 =>
      dfCumProduct costOfEquityReal kdNom gearing pi L declining tcOffset k
        * (1 + getOpW costOfEquityReal kdNom gearing pi L declining (k + 1))

/-- `buildDfArray` (useLcoe.ts lines 45-86).  Entry `k` (for `k < usefulLife`)
of the returned `Float64Array`: `df[k] = 1 / (cumProduct * Math.sqrt(1 + w))`
computed before the cumulative product advances. -/
def buildDfArray (costOfEquityReal kdNom gearing pi : ℝ) (usefulLife : ℕ)
    (declining : Bool) (tcOffset : ℕ) (k : ℕ) : ℝ :=
  1 / (dfCumProduct costOfEquityReal kdNom gearing pi (usefulLife / 3) declining tcOffset k
      * Real.sqrt (1 + getOpW costOfEquityReal kdNom gearing pi (usefulLife / 3) declining (k + 1)))

/-! Part: Construction phase (useLcoe.ts lines 142-265) -/

/-- S-curve weight `weights[t] = Math.sin(Math.PI * (t + 0.5) / Tc)` (line 171). -/
def sWeight (Tc t : ℕ) : ℝ := Real.sin (Real.pi * ((t : ℝ) + 0.5) / (Tc : ℝ))

/-- `weightSum` (lines 168-173). -/
def sWeightSum (Tc : ℕ) : ℝ := ∑ t ∈ Finset.range Tc, sWeight Tc t

/-- Nominal capital draw `cNom[t]` (lines 175-183): in lump-sum mode the whole
overnight cost is inflated once to COD and distributed by weight; in dynamic
mode each tranche is inflated to its own mid-year. -/
def cNom (inputs : LcoeInputs) (inflationMode : InflationMode) (t : ℕ) : ℝ :=
  let Tc := TcOf inputs
  let pi := piOf inputs
  match inflationMode with
  | .lumpSum =>
      inputs.overnightCost * (1 + pi) ^ Tc * (sWeight Tc t / sWeightSum Tc)
  | .dynamic =>
      inputs.overnightCost * (sWeight Tc t / sWeightSum Tc)
        * ((1 + pi) ^ t * Real.sqrt (1 + pi))

/-- The share of each draw on which IDC accrues: the whole draw in AFUDC mode
(`K += cNom[t] + capitalized`), the debt tranche `gearing * cNom[t]` in
debt-only mode (`D += cNom[t] * gearing + capitalized`). -/
def idcShare (inputs : LcoeInputs) : IdcMode → ℝ
  | .afudcWholeWacc => 1
  | .debtOnly => gearingOf inputs

/-- The accrual rate of the two IDC loops: the blended nominal WACC in AFUDC
mode (line 196), the nominal cost of debt in debt-only mode (line 214). -/
def idcRate (inputs : LcoeInputs) : IdcMode → ℝ
  | .afudcWholeWacc => (calcNominalWacc inputs).waccNomBlend
  | .debtOnly => (calcNominalWacc inputs).costOfDebtNom

/-- The running balance of the IDC loop (`K` in AFUDC mode, `D` in debt-only
mode, lines 192-227).  The two source loops are the instances
`share = 1, rate = waccNomBlend` and `share = gearing, rate = costOfDebtNom`
of this single recurrence: per year the balance accrues
`(balance + share * draw / 2) * rate`, of which the fraction `rabFrac` is
surcharged and the rest capitalized into the balance together with the draw. -/
def idcBalance (c : ℕ → ℝ) (share rate rabFrac : ℝ) : ℕ → ℝ
  | 0 => 0
  | t + 1 =>
      idcBalance c share rate rabFrac t + c t * share
        + (idcBalance c share rate rabFrac t + c t * share / 2) * rate * (1 - rabFrac)

/-- `capIdcPerYear[t]`: the capitalized part of the interest of year `t`. -/
def capIdc (c : ℕ → ℝ) (share rate rabFrac : ℝ) (t : ℕ) : ℝ :=
  (idcBalance c share rate rabFrac t + c t * share / 2) * rate * (1 - rabFrac)

/-- `surcharged`: the RAB-surcharged part of the interest of year `t`. -/
def surchargedIdc (c : ℕ → ℝ) (share rate rabFrac : ℝ) (t : ℕ) : ℝ :=
  (idcBalance c share rate rabFrac t + c t * share / 2) * rate * rabFrac

/-- `dfSoc = 1 / Math.pow(1 + waccNomBlend, t + 0.5)` (lines 200, 218, 240). -/
def dfSocAt (w : ℝ) (t : ℕ) : ℝ := 1 / ((1 + w) ^ t * Real.sqrt (1 + w))

/-- `compWacc = Math.pow(1 + waccNomBlend, Tc - (t + 0.5))` (lines 204, 221,
244), written with the natural exponent `Tc - 1 - t`; for `t < Tc` (the loop
range) `Tc - (t + 0.5) = (Tc - 1 - t) + 0.5`. -/
def compWaccAt (w : ℝ) (Tc t : ℕ) : ℝ := (1 + w) ^ (Tc - 1 - t) * Real.sqrt (1 + w)

/-- `compInfl` (lines 248-250): `1` in lump-sum mode (the draws are already
COD-year nominal), `Math.pow(1 + pi, Tc - (t + 0.5))` in dynamic mode. -/
def compInflAt (pi : ℝ) (Tc t : ℕ) : InflationMode → ℝ
  | .lumpSum => 1
  | .dynamic => (1 + pi) ^ (Tc - 1 - t) * Real.sqrt (1 + pi)

/-- `pvOccSOC` accumulated over the first `n` construction years (line 241). -/
def pvOccP (c : ℕ → ℝ) (w : ℝ) (n : ℕ) : ℝ :=
  ∑ t ∈ Finset.range n, c t * dfSocAt w t

/-- `pvFinancingSOC` (line 242). -/
def pvFinP (c : ℕ → ℝ) (share rate rabFrac w : ℝ) (n : ℕ) : ℝ :=
  ∑ t ∈ Finset.range n, capIdc c share rate rabFrac t * dfSocAt w t

/-- `fvEconomicCOD` (line 245). -/
def fvEconP (c : ℕ → ℝ) (w : ℝ) (n : ℕ) : ℝ :=
  ∑ t ∈ Finset.range n, c t * compWaccAt w n t

/-- `buildConstructionPhase` (useLcoe.ts lines 142-265). -/
def buildConstructionPhase (inputs : LcoeInputs) (inflationMode : InflationMode)
    (idcMode : IdcMode) (rabFrac : ℝ) : ConstructionResult :=
  let Tc := TcOf inputs
  if Tc = 0 then
    { pvOccSOC := inputs.overnightCost
      pvFinancingSOC := 0
      pvCapexSOC := inputs.overnightCost
      fvEconomicCOD := inputs.overnightCost
      occRatioCOD := 1
      pvSurchargedIdcSOC := 0
      fvSurchargedCOD := 0 }
  else
    let pi := piOf inputs
    let w := (calcNominalWacc inputs).waccNomBlend
    let c := cNom inputs inflationMode
    let share := idcShare inputs idcMode
    let rate := idcRate inputs idcMode
    let pvOccSOC := pvOccP c w Tc
    let pvFinancingSOC := pvFinP c share rate rabFrac w Tc
    let fvEconomicCOD := fvEconP c w Tc
    let fvOccBookCOD := ∑ t ∈ Finset.range Tc, c t * compInflAt pi Tc t inflationMode
    { pvOccSOC := pvOccSOC
      pvFinancingSOC := pvFinancingSOC
      pvCapexSOC := pvOccSOC + pvFinancingSOC
      fvEconomicCOD := fvEconomicCOD
      occRatioCOD := if 0 < fvEconomicCOD then fvOccBookCOD / fvEconomicCOD else 1
      pvSurchargedIdcSOC :=
        ∑ t ∈ Finset.range Tc, surchargedIdc c share rate rabFrac t * dfSocAt w t
      fvSurchargedCOD :=
        ∑ t ∈ Finset.range Tc, surchargedIdc c share rate rabFrac t * compWaccAt w Tc t }

/-! Part: Core LCOE computation (useLcoe.ts lines 281-371) -/

/-- The all-zero `LcoeResult` (line 294). -/
def zeroLcoe : LcoeResult :=
  { totalLcoe := 0, occLcoe := 0, financingLcoe := 0, fuelLcoe := 0, omLcoe := 0
    decommissioningLcoe := 0, surchargedIdcLcoe := 0 }

/-- `annualMwh = loadHours > 0 ? loadHours / 1000 : 0` (line 293). -/
def annualMwhOf (inputs : LcoeInputs) : ℝ :=
  if 0 < inputs.loadHours then inputs.loadHours / 1000 else 0

/-- Fisher-converted nominal sinking-fund rate from the fixed 1% real rate
(lines 299-300). -/
def decomFundRateNomOf (inputs : LcoeInputs) : ℝ :=
  (1 + 0.01) * (1 + piOf inputs) - 1

/-- `futureDecomCost` (line 301): real decommissioning cost inflated over
`Tc + TL` years. -/
def futureDecomCostOf (inputs : LcoeInputs) : ℝ :=
  inputs.decommissioningCost * (1 + piOf inputs) ^ (TcOf inputs + TLof inputs)

/-- Level sinking-fund payment `annualDecom` (lines 302-304). -/
def annualDecomOf (inputs : LcoeInputs) : ℝ :=
  let rate := decomFundRateNomOf inputs
  let TL := TLof inputs
  if 0 < rate ∧ 0 < TL then
    futureDecomCostOf inputs * (rate / ((1 + rate) ^ TL - 1))
  else if 0 < TL then futureDecomCostOf inputs / (TL : ℝ) else 0

/-- Operational-year escalation `esc = Math.pow(1 + pi, Tc + k + 0.5)`
(lines 315, 342, 441). -/
def escAt (inputs : LcoeInputs) (k : ℕ) : ℝ :=
  (1 + piOf inputs) ^ (TcOf inputs + k) * Real.sqrt (1 + piOf inputs)

/-- Single-life `pvEnergy` (lines 311-320). -/
def pvEnergyOf (inputs : LcoeInputs) (df : ℕ → ℝ) : ℝ :=
  ∑ k ∈ Finset.range (TLof inputs), annualMwhOf inputs * df k

/-- Single-life `pvOm`. -/
def pvOmOf (inputs : LcoeInputs) (df : ℕ → ℝ) : ℝ :=
  ∑ k ∈ Finset.range (TLof inputs), inputs.omCost * escAt inputs k * df k

/-- Single-life `pvFuel` (`baseFuelCost = fuelCost * annualMwh`, line 306). -/
def pvFuelOf (inputs : LcoeInputs) (df : ℕ → ℝ) : ℝ :=
  ∑ k ∈ Finset.range (TLof inputs),
    inputs.fuelCost * annualMwhOf inputs * escAt inputs k * df k

/-- Single-life `pvDecom`. -/
def pvDecomOf (inputs : LcoeInputs) (df : ℕ → ℝ) : ℝ :=
  ∑ k ∈ Finset.range (TLof inputs), annualDecomOf inputs * df k

/-- `N1 = Math.ceil(TL / 2)` (line 335). -/
def N1of (inputs : LcoeInputs) : ℕ := (TLof inputs + 1) / 2

/-- First-half energy PV `pvE1` of the 2-lives loop (lines 340-349). -/
def pvE1of (inputs : LcoeInputs) (df : ℕ → ℝ) : ℝ :=
  ∑ k ∈ Finset.range (TLof inputs),
    if k < N1of inputs then annualMwhOf inputs * df k else 0

/-- Second-half energy PV `pvE2`. -/
def pvE2of (inputs : LcoeInputs) (df : ℕ → ℝ) : ℝ :=
  ∑ k ∈ Finset.range (TLof inputs),
    if k < N1of inputs then 0 else annualMwhOf inputs * df k

/-- First-half O&M PV `pvO1`. -/
def pvO1of (inputs : LcoeInputs) (df : ℕ → ℝ) : ℝ :=
  ∑ k ∈ Finset.range (TLof inputs),
    if k < N1of inputs then inputs.omCost * escAt inputs k * df k else 0

/-- Second-half O&M PV `pvO2`. -/
def pvO2of (inputs : LcoeInputs) (df : ℕ → ℝ) : ℝ :=
  ∑ k ∈ Finset.range (TLof inputs),
    if k < N1of inputs then 0 else inputs.omCost * escAt inputs k * df k

/-- First-half fuel PV `pvF1`. -/
def pvF1of (inputs : LcoeInputs) (df : ℕ → ℝ) : ℝ :=
  ∑ k ∈ Finset.range (TLof inputs),
    if k < N1of inputs then inputs.fuelCost * annualMwhOf inputs * escAt inputs k * df k
    else 0

/-- Second-half fuel PV `pvF2`. -/
def pvF2of (inputs : LcoeInputs) (df : ℕ → ℝ) : ℝ :=
  ∑ k ∈ Finset.range (TLof inputs),
    if k < N1of inputs then 0
    else inputs.fuelCost * annualMwhOf inputs * escAt inputs k * df k

/-- First-half decommissioning PV `pvD1`. -/
def pvD1of (inputs : LcoeInputs) (df : ℕ → ℝ) : ℝ :=
  ∑ k ∈ Finset.range (TLof inputs),
    if k < N1of inputs then annualDecomOf inputs * df k else 0

/-- Second-half decommissioning PV `pvD2`. -/
def pvD2of (inputs : LcoeInputs) (df : ℕ → ℝ) : ℝ :=
  ∑ k ∈ Finset.range (TLof inputs),
    if k < N1of inputs then 0 else annualDecomOf inputs * df k

/-- `computeCoreLcoe` (useLcoe.ts lines 281-371): single- or dual-life
decomposed LCOE from PV-at-SOC construction components and a discount-factor
sequence. -/
def computeCoreLcoe (inputs : LcoeInputs) (pvOccSOC pvFinancingSOC pvSurchargedIdcSOC : ℝ)
    (df : ℕ → ℝ) (twoLives : Bool) : LcoeResult :=
  let TL := TLof inputs
  let annualMwh := annualMwhOf inputs
  if annualMwh ≤ 0 ∨ TL = 0 then zeroLcoe
  else if twoLives = false then
    let pvEnergy := pvEnergyOf inputs df
    let pvOm := pvOmOf inputs df
    let pvFuel := pvFuelOf inputs df
    let pvDecom := pvDecomOf inputs df
    if pvEnergy ≤ 0 then zeroLcoe
    else
      { totalLcoe := (pvOccSOC + pvFinancingSOC + pvOm + pvFuel + pvDecom) / pvEnergy
        occLcoe := pvOccSOC / pvEnergy
        financingLcoe := pvFinancingSOC / pvEnergy
        fuelLcoe := pvFuel / pvEnergy
        omLcoe := pvOm / pvEnergy
        decommissioningLcoe := pvDecom / pvEnergy
        surchargedIdcLcoe :=
          if 0 < pvSurchargedIdcSOC then pvSurchargedIdcSOC / pvEnergy else 0 }
  else
    let pvE1 := pvE1of inputs df
    let pvE2 := pvE2of inputs df
    let pvO1 := pvO1of inputs df
    let pvO2 := pvO2of inputs df
    let pvF1 := pvF1of inputs df
    let pvF2 := pvF2of inputs df
    let pvD1 := pvD1of inputs df
    let pvD2 := pvD2of inputs df
    let pvEnergyTotal := pvE1 + pvE2
    if pvEnergyTotal ≤ 0 then zeroLcoe
    else
      let pvOpexTotal := (pvO1 + pvO2) + (pvF1 + pvF2) + (pvD1 + pvD2)
      { totalLcoe := (pvOccSOC + pvFinancingSOC + pvOpexTotal) / pvEnergyTotal
        occLcoe := pvOccSOC / pvEnergyTotal
        financingLcoe := pvFinancingSOC / pvEnergyTotal
        fuelLcoe := (pvF1 + pvF2) / pvEnergyTotal
        omLcoe := (pvO1 + pvO2) / pvEnergyTotal
        decommissioningLcoe := (pvD1 + pvD2) / pvEnergyTotal
        surchargedIdcLcoe :=
          if 0 < pvSurchargedIdcSOC then pvSurchargedIdcSOC / pvEnergyTotal else 0
        halfLcoe1 :=
          some (if 0 < pvE1 then (pvOccSOC + pvFinancingSOC + pvO1 + pvF1 + pvD1) / pvE1 else 0)
        halfLcoe2 := some (if 0 < pvE2 then (pvO2 + pvF2 + pvD2) / pvE2 else 0) }

/-! Part: Turnkey LCOE computation (useLcoe.ts lines 387-472) -/

/-- The buyer discount-factor sequence (line 411): construction offset 0,
buyer clock starts at COD. -/
def buyerDfOf (inputs : LcoeInputs) (declining : Bool) : ℕ → ℝ :=
  buildDfArray (inputs.costOfEquity / 100) (calcNominalWacc inputs).costOfDebtNom
    (gearingOf inputs) (piOf inputs) (TLof inputs) declining 0

/-- `nTranches = Math.min(3, TL)` (line 416). -/
def nTranchesOf (inputs : LcoeInputs) : ℕ := min 3 (TLof inputs)

/-- `annuityFactor` (lines 417-418): the sum of the first `nTranches` buyer
discount factors. -/
def annuityFactorOf (inputs : LcoeInputs) (declining : Bool) : ℝ :=
  ∑ k ∈ Finset.range (nTranchesOf inputs), buyerDfOf inputs declining k

/-- `fvEconomicNetCOD = Math.max(0, fvEconomicCOD - fvSurchargedCOD)` (line 405). -/
def fvEconomicNetCODof (fvEconomicCOD fvSurchargedCOD : ℝ) : ℝ :=
  max 0 (fvEconomicCOD - fvSurchargedCOD)

/-- `annualPayment` (line 419). -/
def annualPaymentOf (inputs : LcoeInputs) (fvEconomicCOD fvSurchargedCOD : ℝ)
    (declining : Bool) : ℝ :=
  let net := fvEconomicNetCODof fvEconomicCOD fvSurchargedCOD
  if 0 < annuityFactorOf inputs declining then net / annuityFactorOf inputs declining
  else net

/-- `pvSaleTranches` (lines 434-435). -/
def pvSaleTranchesOf (inputs : LcoeInputs) (fvEconomicCOD fvSurchargedCOD : ℝ)
    (declining : Bool) : ℝ :=
  ∑ k ∈ Finset.range (nTranchesOf inputs),
    annualPaymentOf inputs fvEconomicCOD fvSurchargedCOD declining
      * buyerDfOf inputs declining k

/-- Buyer-side `pvEnergy` of the turnkey loop (lines 437-446). -/
def tkPvEnergyOf (inputs : LcoeInputs) (declining : Bool) : ℝ :=
  ∑ k ∈ Finset.range (TLof inputs), annualMwhOf inputs * buyerDfOf inputs declining k

/-- Buyer-side `pvOm`. -/
def tkPvOmOf (inputs : LcoeInputs) (declining : Bool) : ℝ :=
  ∑ k ∈ Finset.range (TLof inputs),
    inputs.omCost * escAt inputs k * buyerDfOf inputs declining k

/-- Buyer-side `pvFuel`. -/
def tkPvFuelOf (inputs : LcoeInputs) (declining : Bool) : ℝ :=
  ∑ k ∈ Finset.range (TLof inputs),
    inputs.fuelCost * annualMwhOf inputs * escAt inputs k * buyerDfOf inputs declining k

/-- Buyer-side `pvDecom`. -/
def tkPvDecomOf (inputs : LcoeInputs) (declining : Bool) : ℝ :=
  ∑ k ∈ Finset.range (TLof inputs), annualDecomOf inputs * buyerDfOf inputs declining k

/-- `computeTurnkeyLcoe` (useLcoe.ts lines 387-472). -/
def computeTurnkeyLcoe (inputs : LcoeInputs)
    (fvEconomicCOD fvSurchargedCOD occRatioCOD : ℝ) (declining : Bool) : LcoeResult :=
  let TL := TLof inputs
  let annualMwh := annualMwhOf inputs
  if annualMwh ≤ 0 ∨ TL = 0 then zeroLcoe
  else
    let net := fvEconomicNetCODof fvEconomicCOD fvSurchargedCOD
    let annualPayment := annualPaymentOf inputs fvEconomicCOD fvSurchargedCOD declining
    let pvSaleTranches := pvSaleTranchesOf inputs fvEconomicCOD fvSurchargedCOD declining
    let pvEnergy := tkPvEnergyOf inputs declining
    let pvOm := tkPvOmOf inputs declining
    let pvFuel := tkPvFuelOf inputs declining
    let pvDecom := tkPvDecomOf inputs declining
    if pvEnergy ≤ 0 then zeroLcoe
    else
      let fvOccBookCOD := occRatioCOD * fvEconomicCOD
      let occRatioNet := if 0 < net then min (fvOccBookCOD / net) 1 else 1
      { totalLcoe := (pvSaleTranches + pvOm + pvFuel + pvDecom) / pvEnergy
        occLcoe := pvSaleTranches * occRatioNet / pvEnergy
        financingLcoe := pvSaleTranches * (1 - occRatioNet) / pvEnergy
        fuelLcoe := pvFuel / pvEnergy
        omLcoe := pvOm / pvEnergy
        decommissioningLcoe := pvDecom / pvEnergy
        surchargedIdcLcoe := 0
        developerSalePrice := some (annualPayment * (nTranchesOf inputs : ℝ)) }

/-! Part: Step-aware orchestrator (useLcoe.ts lines 477-518) -/

/-- `inflationMode` selection (line 489). -/
def inflationModeOf (step : ℕ) : InflationMode :=
  if step = 1 then .lumpSum else .dynamic

/-- `idcMode` selection (line 490). -/
def idcModeOf (step : ℕ) : IdcMode :=
  if step = 1 then .afudcWholeWacc else .debtOnly

/-- `rabFrac = (step === 3 && adv.rabEnabled) ? 1.0 : 0` (line 491). -/
def rabFracOf (step : ℕ) (adv : AdvancedToggles) : ℝ :=
  if step = 3 ∧ adv.rabEnabled = true then 1 else 0

/-- `declining = step === 3 && adv.decliningWacc` (line 492). -/
def decliningOf (step : ℕ) (adv : AdvancedToggles) : Bool :=
  decide (step = 3) && adv.decliningWacc

/-- The discount-factor sequence built by `calculateLcoe` via `buildDfArray`
(lines 503-506): base real cost of equity, nominal cost of debt, clamped
gearing, inflation, rounded useful life, the declining toggle, and the full
construction time as offset (`tcOffset = Tc`, valuation at SOC). -/
def calculateDf (inputs : LcoeInputs) (step : ℕ) (adv : AdvancedToggles) : ℕ → ℝ :=
  buildDfArray (inputs.costOfEquity / 100) (calcNominalWacc inputs).costOfDebtNom
    (gearingOf inputs) (piOf inputs) (TLof inputs) (decliningOf step adv) (TcOf inputs)

/-- `calculateLcoe` (useLcoe.ts lines 477-518): step-aware dispatch with an
optional precomputed construction result and discount-factor sequence. -/
def calculateLcoe (inputs : LcoeInputs) (step : ℕ) (adv : AdvancedToggles)
    (precomputed : Option (ConstructionResult × (ℕ → ℝ))) : LcoeResult :=
  let constr :=
    match precomputed with
    | some p => p.1
    | none =>
        buildConstructionPhase inputs (inflationModeOf step) (idcModeOf step)
          (rabFracOf step adv)
  let df :=
    match precomputed with
    | some p => p.2
    | none => calculateDf inputs step adv
  if step = 3 ∧ adv.turnkey = true then
    computeTurnkeyLcoe inputs constr.fvEconomicCOD constr.fvSurchargedCOD
      constr.occRatioCOD (decliningOf step adv)
  else
    computeCoreLcoe inputs constr.pvOccSOC constr.pvFinancingSOC
      constr.pvSurchargedIdcSOC df (decide (step = 3) && adv.twoLives)

/-- Concrete dual-life input for the C6 counterexample: zero rates, so every
discount factor is 1 and the two halves carry equal energy PV. -/
def exDualFlat : LcoeInputs :=
  { usefulLife := 2, overnightCost := 100, constructionTime := 0
    costOfEquity := 0, costOfDebt := 0, targetGearing := 0, fuelCost := 0
    omCost := 0, loadHours := 1000, decommissioningCost := 0
    rabProportion := 0, inflationRate := 0, extensionCapEx := 0 }

/-- The advanced-toggle record enabling only the dual-life option. -/
def advDualOnly : AdvancedToggles :=
  { rabEnabled := false, decliningWacc := false, turnkey := false
    twoLives := true, valuationPoint := .soc }

/-- With the declining flag off, every operational year uses the base rate. -/
theorem getOpW_false (costOfEquityReal kdNom gearing pi : ℝ) (L : ℕ) (opYear : ℕ) :
    getOpW costOfEquityReal kdNom gearing pi L false opYear
      = baseWaccOf costOfEquityReal kdNom gearing pi := by
  simp [getOpW, baseWaccOf]

/-- With zero tranche length the declining branch is dead code for any flag. -/
theorem getOpW_of_L_zero (costOfEquityReal kdNom gearing pi : ℝ) (d₁ d₂ : Bool)
    (opYear : ℕ) :
    getOpW costOfEquityReal kdNom gearing pi 0 d₁ opYear
      = getOpW costOfEquityReal kdNom gearing pi 0 d₂ opYear := by
  simp [getOpW]

theorem dfCumProduct_false (costOfEquityReal kdNom gearing pi : ℝ) (L tcOffset : ℕ) :
    ∀ k, dfCumProduct costOfEquityReal kdNom gearing pi L false tcOffset k
      = (1 + baseWaccOf costOfEquityReal kdNom gearing pi) ^ (tcOffset + k) := by
  intro k
  induction k with
  | zero => simp [dfCumProduct]
  | succ k ih =>
      rw [dfCumProduct, ih, getOpW_false, Nat.add_succ, pow_succ]

/-- Claim C4: `buildDfArray` computes each factor before advancing the cumulative
product: with the declining flag off the k-th factor is
`(1+w)^-(tcOffset+k+0.5)` for the blended nominal WACC `w`, and in particular
with `tcOffset = 0` the first factor is `(1+w)^-0.5`, not `(1+w)^-1.5`. -/
theorem C4_factor_before_advance (costOfEquityReal kdNom gearing pi : ℝ)
    (TL tcOffset k : ℕ)
    (hw : 0 < 1 + baseWaccOf costOfEquityReal kdNom gearing pi) :
    buildDfArray costOfEquityReal kdNom gearing pi TL false tcOffset k
      = (1 + baseWaccOf costOfEquityReal kdNom gearing pi)
          ^ (-((tcOffset : ℝ) + (k : ℝ) + 0.5))
    ∧ buildDfArray costOfEquityReal kdNom gearing pi TL false 0 0
      = (1 + baseWaccOf costOfEquityReal kdNom gearing pi) ^ (-(0.5 : ℝ)) := by
  constructor
  · rw [buildDfArray, dfCumProduct_false, getOpW_false]
    rw [Real.rpow_neg hw.le, Real.sqrt_eq_rpow, ← Real.rpow_natCast _ (tcOffset + k),
      ← Real.rpow_add hw]
    rw [one_div, one_div]
    norm_num
  · rw [buildDfArray, dfCumProduct_false, getOpW_false]
    rw [Real.rpow_neg hw.le, Real.sqrt_eq_rpow]
    norm_num

/-- Witness for C4 at concrete parameters. -/
theorem C4_factor_before_advance_witness :
    buildDfArray 0.05 0.04 0.5 0 40 false 8 0
      = (1 + baseWaccOf 0.05 0.04 0.5 0) ^ (-(((8 : ℕ) : ℝ) + ((0 : ℕ) : ℝ) + 0.5)) := by
  have h : 0 < 1 + baseWaccOf 0.05 0.04 0.5 0 := by norm_num [baseWaccOf]
  exact (C4_factor_before_advance 0.05 0.04 0.5 0 40 8 0 h).1

/-! Part: C7: degenerate inputs give the all-zero result -/

theorem TLof_eq_zero_of_nonpos (inputs : LcoeInputs) (h : inputs.usefulLife ≤ 0) :
    TLof inputs = 0 := by
  have hr : round inputs.usefulLife ≤ 0 := by
    rw [round_eq]
    have hle : inputs.usefulLife + 1 / 2 ≤ 1 / 2 := by linarith
    calc ⌊inputs.usefulLife + 1 / 2⌋ ≤ ⌊(1 / 2 : ℝ)⌋ := Int.floor_le_floor hle
      _ = 0 := by
          rw [Int.floor_eq_zero_iff]
          constructor <;> norm_num
  exact Int.toNat_eq_zero.mpr hr

theorem annualMwh_nonpos (inputs : LcoeInputs) (h : inputs.loadHours / 1000 ≤ 0) :
    annualMwhOf inputs ≤ 0 := by
  unfold annualMwhOf
  split_ifs with hpos
  · exact h
  · exact le_refl 0

/-- Claim C7: With non-positive annual energy (`loadHours/1000 ≤ 0`) or
non-positive useful life, both the core and the turnkey LCOE computations
return the all-zero `LcoeResult`. -/
theorem C7_degenerate_zero (inputs : LcoeInputs)
    (h : inputs.loadHours / 1000 ≤ 0 ∨ inputs.usefulLife ≤ 0) :
    (∀ pvOcc pvFin pvSur df twoLives,
      computeCoreLcoe inputs pvOcc pvFin pvSur df twoLives = zeroLcoe)
    ∧ ∀ fvE fvS oc declining,
      computeTurnkeyLcoe inputs fvE fvS oc declining = zeroLcoe := by
  have hg : annualMwhOf inputs ≤ 0 ∨ TLof inputs = 0 := by
    rcases h with h | h
    · exact Or.inl (annualMwh_nonpos inputs h)
    · exact Or.inr (TLof_eq_zero_of_nonpos inputs h)
  constructor
  · intro pvOcc pvFin pvSur df twoLives
    unfold computeCoreLcoe
    rw [if_pos hg]
  · intro fvE fvS oc declining
    unfold computeTurnkeyLcoe
    rw [if_pos hg]

/-- Witness for C7 at a concrete degenerate input. -/
theorem C7_degenerate_zero_witness :
    computeCoreLcoe
      { usefulLife := 60, overnightCost := 6500, constructionTime := 8
        costOfEquity := 9, costOfDebt := 4, targetGearing := 60, fuelCost := 10
        omCost := 140, loadHours := 0, decommissioningCost := 1000
        rabProportion := 50, inflationRate := 2, extensionCapEx := 0 }
      1 2 3 (fun _ => 1) false = zeroLcoe := by
  refine (C7_degenerate_zero _ (Or.inl ?_)).1 1 2 3 (fun _ => 1) false
  norm_num

/-! Part: C3: the primary buckets sum to totalLcoe -/

theorem core_buckets_sum (inputs : LcoeInputs) (pvOcc pvFin pvSur : ℝ)
    (df : ℕ → ℝ) (twoLives : Bool) :
    (computeCoreLcoe inputs pvOcc pvFin pvSur df twoLives).occLcoe
      + (computeCoreLcoe inputs pvOcc pvFin pvSur df twoLives).financingLcoe
      + (computeCoreLcoe inputs pvOcc pvFin pvSur df twoLives).fuelLcoe
      + (computeCoreLcoe inputs pvOcc pvFin pvSur df twoLives).omLcoe
      + (computeCoreLcoe inputs pvOcc pvFin pvSur df twoLives).decommissioningLcoe
      = (computeCoreLcoe inputs pvOcc pvFin pvSur df twoLives).totalLcoe := by
  unfold computeCoreLcoe
  by_cases h1 : annualMwhOf inputs ≤ 0 ∨ TLof inputs = 0
  · rw [if_pos h1]
    simp [zeroLcoe]
  · rw [if_neg h1]
    by_cases h2 : twoLives = false
    · rw [if_pos h2]
      by_cases h3 : pvEnergyOf inputs df ≤ 0
      · rw [if_pos h3]
        simp [zeroLcoe]
      · rw [if_neg h3]
        dsimp only
        ring
    · rw [if_neg h2]
      by_cases h3 : pvE1of inputs df + pvE2of inputs df ≤ 0
      · rw [if_pos h3]
        simp [zeroLcoe]
      · rw [if_neg h3]
        dsimp only
        ring

theorem turnkey_buckets_sum (inputs : LcoeInputs) (fvE fvS oc : ℝ) (declining : Bool) :
    (computeTurnkeyLcoe inputs fvE fvS oc declining).occLcoe
      + (computeTurnkeyLcoe inputs fvE fvS oc declining).financingLcoe
      + (computeTurnkeyLcoe inputs fvE fvS oc declining).fuelLcoe
      + (computeTurnkeyLcoe inputs fvE fvS oc declining).omLcoe
      + (computeTurnkeyLcoe inputs fvE fvS oc declining).decommissioningLcoe
      = (computeTurnkeyLcoe inputs fvE fvS oc declining).totalLcoe := by
  unfold computeTurnkeyLcoe
  by_cases h1 : annualMwhOf inputs ≤ 0 ∨ TLof inputs = 0
  · rw [if_pos h1]
    simp [zeroLcoe]
  · rw [if_neg h1]
    by_cases h2 : tkPvEnergyOf inputs declining ≤ 0
    · rw [if_pos h2]
      simp [zeroLcoe]
    · rw [if_neg h2]
      dsimp only
      ring

/-- Claim C3: For every `LcoeResult` produced by `calculateLcoe` (standard,
dual-life and turnkey paths alike), the five primary buckets sum exactly to
`totalLcoe`; `surchargedIdcLcoe` is not part of the sum. -/
theorem C3_buckets_sum_to_total (inputs : LcoeInputs) (step : ℕ) (adv : AdvancedToggles)
    (pre : Option (ConstructionResult × (ℕ → ℝ))) :
    (calculateLcoe inputs step adv pre).occLcoe
      + (calculateLcoe inputs step adv pre).financingLcoe
      + (calculateLcoe inputs step adv pre).fuelLcoe
      + (calculateLcoe inputs step adv pre).omLcoe
      + (calculateLcoe inputs step adv pre).decommissioningLcoe
      = (calculateLcoe inputs step adv pre).totalLcoe := by
  unfold calculateLcoe
  split_ifs
  · exact turnkey_buckets_sum _ _ _ _ _
  · exact core_buckets_sum _ _ _ _ _ _

/-! Part: C9: gearing is clamped; rabFrac is not -/

theorem clamp_gearing_idem (g : ℝ) :
    min (max (min (max g 0) 100) 0) 100 = min (max g 0) 100 := by
  have h0 : (0 : ℝ) ≤ min (max g 0) 100 := le_min (le_max_right g 0) (by norm_num)
  rw [max_eq_left h0, min_eq_left (min_le_right _ _)]

/-- Amended claim C9: out-of-range `targetGearing` is clamped into [0,100] by
both `calcNominalWacc` and `buildConstructionPhase` (replacing it by its
clamped value changes nothing); `rabFrac`, by contrast, is used as passed
(see the counterexample). -/
theorem C9_gearing_clamped (inputs : LcoeInputs) (g : ℝ) (mode : InflationMode)
    (idc : IdcMode) (rab : ℝ) :
    calcNominalWacc { inputs with targetGearing := g }
      = calcNominalWacc { inputs with targetGearing := min (max g 0) 100 }
    ∧ buildConstructionPhase { inputs with targetGearing := g } mode idc rab
      = buildConstructionPhase { inputs with targetGearing := min (max g 0) 100 } mode idc rab := by
  have hg : gearingOf { inputs with targetGearing := g }
      = gearingOf { inputs with targetGearing := min (max g 0) 100 } := by
    simp only [gearingOf, clamp_gearing_idem]
  have hw : calcNominalWacc { inputs with targetGearing := g }
      = calcNominalWacc { inputs with targetGearing := min (max g 0) 100 } := by
    simp only [calcNominalWacc, piOf, hg]
  refine ⟨hw, ?_⟩
  have hshare : idcShare { inputs with targetGearing := g } idc
      = idcShare { inputs with targetGearing := min (max g 0) 100 } idc := by
    cases idc <;> simp only [idcShare, hg]
  have hrate : idcRate { inputs with targetGearing := g } idc
      = idcRate { inputs with targetGearing := min (max g 0) 100 } idc := by
    cases idc <;> simp only [idcRate, hw]
  have hcnom : cNom { inputs with targetGearing := g } mode
      = cNom { inputs with targetGearing := min (max g 0) 100 } mode := rfl
  simp only [buildConstructionPhase, piOf, TcOf, hw, hshare, hrate, hcnom]

/-! Part: C5: operational-only inputs do not touch the cached artifacts -/

/-- Claim C5: Two inputs that differ only in the operational-only set
(`fuelCost`, `omCost`, `loadHours`, `decommissioningCost`) produce identical
`ConstructionResult`s from `buildConstructionPhase` and an identical
discount-factor sequence in `calculateLcoe`, so a cached pair stays valid. -/
theorem C5_operational_invariance (i1 i2 : LcoeInputs)
    (h1 : i1.usefulLife = i2.usefulLife) (h2 : i1.overnightCost = i2.overnightCost)
    (h3 : i1.constructionTime = i2.constructionTime)
    (h4 : i1.costOfEquity = i2.costOfEquity) (h5 : i1.costOfDebt = i2.costOfDebt)
    (h6 : i1.targetGearing = i2.targetGearing)
    (h7 : i1.rabProportion = i2.rabProportion)
    (h8 : i1.inflationRate = i2.inflationRate)
    (h9 : i1.extensionCapEx = i2.extensionCapEx) :
    (∀ mode idc rab,
      buildConstructionPhase i1 mode idc rab = buildConstructionPhase i2 mode idc rab)
    ∧ ∀ step adv k, calculateDf i1 step adv k = calculateDf i2 step adv k := by
  cases i1
  cases i2
  dsimp only at h1 h2 h3 h4 h5 h6 h7 h8 h9
  subst h1 h2 h3 h4 h5 h6 h7 h8 h9
  exact ⟨fun _ _ _ => rfl, fun _ _ _ => rfl⟩

/-- Witness for C5: two concrete inputs differing in all four operational
fields give the same construction phase and discount factors. -/
theorem C5_operational_invariance_witness :
    buildConstructionPhase
        { usefulLife := 60, overnightCost := 6500, constructionTime := 8
          costOfEquity := 9, costOfDebt := 4, targetGearing := 60, fuelCost := 10
          omCost := 140, loadHours := 7884, decommissioningCost := 1000
          rabProportion := 50, inflationRate := 2, extensionCapEx := 0 }
        InflationMode.dynamic IdcMode.debtOnly 0
      = buildConstructionPhase
        { usefulLife := 60, overnightCost := 6500, constructionTime := 8
          costOfEquity := 9, costOfDebt := 4, targetGearing := 60, fuelCost := 12
          omCost := 150, loadHours := 7000, decommissioningCost := 800
          rabProportion := 50, inflationRate := 2, extensionCapEx := 0 }
        InflationMode.dynamic IdcMode.debtOnly 0
    ∧ calculateDf
        { usefulLife := 60, overnightCost := 6500, constructionTime := 8
          costOfEquity := 9, costOfDebt := 4, targetGearing := 60, fuelCost := 10
          omCost := 140, loadHours := 7884, decommissioningCost := 1000
          rabProportion := 50, inflationRate := 2, extensionCapEx := 0 } 2
        { rabEnabled := false, decliningWacc := false, turnkey := false
          twoLives := false, valuationPoint := .soc } 0
      = calculateDf
        { usefulLife := 60, overnightCost := 6500, constructionTime := 8
          costOfEquity := 9, costOfDebt := 4, targetGearing := 60, fuelCost := 12
          omCost := 150, loadHours := 7000, decommissioningCost := 800
          rabProportion := 50, inflationRate := 2, extensionCapEx := 0 } 2
        { rabEnabled := false, decliningWacc := false, turnkey := false
          twoLives := false, valuationPoint := .soc } 0 :=
  ⟨(C5_operational_invariance _ _ rfl rfl rfl rfl rfl rfl rfl rfl rfl).1
      InflationMode.dynamic IdcMode.debtOnly 0,
    (C5_operational_invariance _ _ rfl rfl rfl rfl rfl rfl rfl rfl rfl).2 2
      { rabEnabled := false, decliningWacc := false, turnkey := false
        twoLives := false, valuationPoint := .soc } 0⟩

/-! Part: C10: the result never depends on rabProportion -/

/-- Claim C10: `calculateLcoe` is independent of the `rabProportion` field: for
every step, toggle set and precomputed artifact, two inputs differing only in
`rabProportion` yield identical results; the RAB fraction actually used is
`1.0` exactly when `step = 3` with `rabEnabled`, and `0` otherwise. -/
theorem C10_rabProportion_independent (i1 i2 : LcoeInputs)
    (h1 : i1.usefulLife = i2.usefulLife) (h2 : i1.overnightCost = i2.overnightCost)
    (h3 : i1.constructionTime = i2.constructionTime)
    (h4 : i1.costOfEquity = i2.costOfEquity) (h5 : i1.costOfDebt = i2.costOfDebt)
    (h6 : i1.targetGearing = i2.targetGearing) (h7 : i1.fuelCost = i2.fuelCost)
    (h8 : i1.omCost = i2.omCost) (h9 : i1.loadHours = i2.loadHours)
    (h10 : i1.decommissioningCost = i2.decommissioningCost)
    (h11 : i1.inflationRate = i2.inflationRate)
    (h12 : i1.extensionCapEx = i2.extensionCapEx) :
    (∀ step adv pre, calculateLcoe i1 step adv pre = calculateLcoe i2 step adv pre)
    ∧ ∀ step adv,
        (step = 3 ∧ adv.rabEnabled = true → rabFracOf step adv = 1)
        ∧ (¬(step = 3 ∧ adv.rabEnabled = true) → rabFracOf step adv = 0) := by
  constructor
  · cases i1
    cases i2
    dsimp only at h1 h2 h3 h4 h5 h6 h7 h8 h9 h10 h11 h12
    subst h1 h2 h3 h4 h5 h6 h7 h8 h9 h10 h11 h12
    exact fun _ _ _ => rfl
  · intro step adv
    constructor
    · intro h
      simp [rabFracOf, h]
    · intro h
      simp only [rabFracOf, if_neg h]

/-- Witness for C10: concrete inputs differing only in `rabProportion`. -/
theorem C10_rabProportion_independent_witness :
    calculateLcoe
        { usefulLife := 60, overnightCost := 6500, constructionTime := 8
          costOfEquity := 9, costOfDebt := 4, targetGearing := 60, fuelCost := 10
          omCost := 140, loadHours := 7884, decommissioningCost := 1000
          rabProportion := 50, inflationRate := 2, extensionCapEx := 0 } 3
        { rabEnabled := true, decliningWacc := false, turnkey := false
          twoLives := false, valuationPoint := .soc } none
      = calculateLcoe
        { usefulLife := 60, overnightCost := 6500, constructionTime := 8
          costOfEquity := 9, costOfDebt := 4, targetGearing := 60, fuelCost := 10
          omCost := 140, loadHours := 7884, decommissioningCost := 1000
          rabProportion := 95, inflationRate := 2, extensionCapEx := 0 } 3
        { rabEnabled := true, decliningWacc := false, turnkey := false
          twoLives := false, valuationPoint := .soc } none :=
  (C10_rabProportion_independent _ _ rfl rfl rfl rfl rfl rfl rfl rfl rfl rfl rfl rfl).1 3
    { rabEnabled := true, decliningWacc := false, turnkey := false
      twoLives := false, valuationPoint := .soc } none

/-! Part: C1: ordering of the construction-phase aggregates

The IDC balance grows by `balance * (1 + r) + draw * share * (1 + r/2)` per
year for an effective capitalization rate `r = rate * (1 - rabFrac)`.  When
that rate does not exceed the blended WACC, the discounted balance stays below
the discounted draws, which bounds the PV of capitalized financing by
`w * (Tc - 1/2)` times the PV of the draws; Bernoulli then gives
`pvCapexSOC < fvEconomicCOD`.  The second spec relation is an exact identity:
`compWacc = (1+w)^Tc * dfSoc` term by term. -/

theorem dfSocAt_pos (w : ℝ) (hu : 0 < 1 + w) (t : ℕ) : 0 < dfSocAt w t := by
  unfold dfSocAt
  exact one_div_pos.mpr (mul_pos (pow_pos hu t) (Real.sqrt_pos.mpr hu))

theorem dfSocAt_succ (w : ℝ) (hu : 0 < 1 + w) (t : ℕ) :
    dfSocAt w (t + 1) = dfSocAt w t / (1 + w) := by
  unfold dfSocAt
  rw [pow_succ]
  field_simp
  ring

theorem idcBalance_succ (c : ℕ → ℝ) (share rate rab : ℝ) (t : ℕ) :
    idcBalance c share rate rab (t + 1)
      = idcBalance c share rate rab t * (1 + rate * (1 - rab))
        + c t * share * (1 + rate * (1 - rab) / 2) := by
  rw [idcBalance]
  ring

theorem pvOccP_succ (c : ℕ → ℝ) (w : ℝ) (t : ℕ) :
    pvOccP c w (t + 1) = pvOccP c w t + c t * dfSocAt w t := by
  unfold pvOccP
  rw [Finset.sum_range_succ]

theorem idcBalance_nonneg (c : ℕ → ℝ) (share rate rab : ℝ) (n : ℕ)
    (hs : 0 ≤ share) (hr : 0 ≤ rate * (1 - rab)) (hc : ∀ t, t < n → 0 ≤ c t) :
    ∀ t, t ≤ n → 0 ≤ idcBalance c share rate rab t := by
  intro t
  induction t with
  | zero => intro _; exact le_refl 0
  | succ t ih =>
      intro ht
      have hB := ih (Nat.le_of_succ_le ht)
      rw [idcBalance_succ]
      have h1 : 0 ≤ idcBalance c share rate rab t * (1 + rate * (1 - rab)) :=
        mul_nonneg hB (by linarith)
      have h2 : 0 ≤ c t * share * (1 + rate * (1 - rab) / 2) :=
        mul_nonneg (mul_nonneg (hc t (Nat.lt_of_succ_le ht)) hs) (by linarith)
      linarith

/-- Discounted-balance invariant: the balance discounted to SOC never exceeds
the PV of the draws booked so far. -/
theorem idcBalance_df_le (c : ℕ → ℝ) (share rate rab w : ℝ) (n : ℕ)
    (hw : 0 < w) (hs0 : 0 ≤ share) (hs1 : share ≤ 1)
    (hr0 : 0 ≤ rate * (1 - rab)) (hrw : rate * (1 - rab) ≤ w)
    (hc : ∀ t, t < n → 0 ≤ c t) :
    ∀ t, t ≤ n → idcBalance c share rate rab t * dfSocAt w t ≤ pvOccP c w t := by
  have hu : 0 < 1 + w := by linarith
  intro t
  induction t with
  | zero =>
      intro _
      simp [idcBalance, pvOccP]
  | succ t ih =>
      intro ht
      have htn : t < n := Nat.lt_of_succ_le ht
      have hB := idcBalance_nonneg c share rate rab n hs0 hr0 hc t (Nat.le_of_lt htn)
      have hdf := (dfSocAt_pos w hu t).le
      rw [idcBalance_succ, dfSocAt_succ w hu, pvOccP_succ]
      have hstep : (idcBalance c share rate rab t * (1 + rate * (1 - rab))
            + c t * share * (1 + rate * (1 - rab) / 2))
          ≤ (idcBalance c share rate rab t + c t) * (1 + w) := by
        have h1 : idcBalance c share rate rab t * (1 + rate * (1 - rab))
            ≤ idcBalance c share rate rab t * (1 + w) :=
          mul_le_mul_of_nonneg_left (by linarith) hB
        have h2 : c t * share * (1 + rate * (1 - rab) / 2) ≤ c t * (1 + w) := by
          have hc' := hc t htn
          have hfac : share * (1 + rate * (1 - rab) / 2) ≤ 1 * (1 + w) := by
            have : (1 : ℝ) + rate * (1 - rab) / 2 ≤ 1 + w := by linarith
            nlinarith
          calc c t * share * (1 + rate * (1 - rab) / 2)
              = c t * (share * (1 + rate * (1 - rab) / 2)) := by ring
            _ ≤ c t * (1 * (1 + w)) := mul_le_mul_of_nonneg_left hfac hc'
            _ = c t * (1 + w) := by ring
        linarith
      calc (idcBalance c share rate rab t * (1 + rate * (1 - rab))
            + c t * share * (1 + rate * (1 - rab) / 2)) * (dfSocAt w t / (1 + w))
          ≤ (idcBalance c share rate rab t + c t) * (1 + w) * (dfSocAt w t / (1 + w)) :=
            mul_le_mul_of_nonneg_right hstep (by positivity)
        _ = idcBalance c share rate rab t * dfSocAt w t + c t * dfSocAt w t := by
            field_simp
            ring
        _ ≤ pvOccP c w t + c t * dfSocAt w t := by
            have := ih (Nat.le_of_lt htn)
            linarith

theorem pvOccP_mono (c : ℕ → ℝ) (w : ℝ) (n : ℕ) (hu : 0 < 1 + w)
    (hc : ∀ t, t < n → 0 ≤ c t) (t : ℕ) (h : t ≤ n) :
    pvOccP c w t ≤ pvOccP c w n := by
  unfold pvOccP
  refine Finset.sum_le_sum_of_subset_of_nonneg (Finset.range_subset.mpr h) ?_
  intro i hi _
  exact mul_nonneg (hc i (Finset.mem_range.mp hi)) (dfSocAt_pos w hu i).le

/-- Per-year bound on the discounted capitalized interest. -/
theorem capIdc_df_le (c : ℕ → ℝ) (share rate rab w : ℝ) (n : ℕ)
    (hw : 0 < w) (hs0 : 0 ≤ share) (hs1 : share ≤ 1)
    (hr0 : 0 ≤ rate * (1 - rab)) (hrw : rate * (1 - rab) ≤ w)
    (hc : ∀ t, t < n → 0 ≤ c t) (t : ℕ) (ht : t < n) :
    capIdc c share rate rab t * dfSocAt w t
      ≤ w * pvOccP c w n - w / 2 * (c t * dfSocAt w t) := by
  have hu : 0 < 1 + w := by linarith
  have hB := idcBalance_nonneg c share rate rab n hs0 hr0 hc t (Nat.le_of_lt ht)
  have hQ := idcBalance_df_le c share rate rab w n hw hs0 hs1 hr0 hrw hc t (Nat.le_of_lt ht)
  have hdf := (dfSocAt_pos w hu t).le
  have hct := hc t ht
  have hcap : capIdc c share rate rab t ≤ (idcBalance c share rate rab t + c t / 2) * w := by
    unfold capIdc
    have hbase : 0 ≤ idcBalance c share rate rab t + c t * share / 2 := by
      have : 0 ≤ c t * share / 2 := by positivity
      linarith
    calc (idcBalance c share rate rab t + c t * share / 2) * rate * (1 - rab)
        = (idcBalance c share rate rab t + c t * share / 2) * (rate * (1 - rab)) := by ring
      _ ≤ (idcBalance c share rate rab t + c t * share / 2) * w :=
          mul_le_mul_of_nonneg_left hrw hbase
      _ ≤ (idcBalance c share rate rab t + c t / 2) * w := by
          have : c t * share / 2 ≤ c t / 2 := by nlinarith
          nlinarith
  have hmul : capIdc c share rate rab t * dfSocAt w t
      ≤ (idcBalance c share rate rab t + c t / 2) * w * dfSocAt w t :=
    mul_le_mul_of_nonneg_right hcap hdf
  have hP : pvOccP c w (t + 1) ≤ pvOccP c w n := pvOccP_mono c w n hu hc (t + 1) ht
  have hPsucc := pvOccP_succ c w t
  nlinarith [mul_le_mul_of_nonneg_left hQ hw.le]

/-- PV of financing is at most `w * (n - 1/2)` times the PV of the draws. -/
theorem pvFinP_le (c : ℕ → ℝ) (share rate rab w : ℝ) (n : ℕ)
    (hw : 0 < w) (hs0 : 0 ≤ share) (hs1 : share ≤ 1)
    (hr0 : 0 ≤ rate * (1 - rab)) (hrw : rate * (1 - rab) ≤ w)
    (hc : ∀ t, t < n → 0 ≤ c t) :
    pvFinP c share rate rab w n
      ≤ (n : ℝ) * (w * pvOccP c w n) - w / 2 * pvOccP c w n := by
  unfold pvFinP
  calc ∑ t ∈ Finset.range n, capIdc c share rate rab t * dfSocAt w t
      ≤ ∑ t ∈ Finset.range n, (w * pvOccP c w n - w / 2 * (c t * dfSocAt w t)) := by
        refine Finset.sum_le_sum ?_
        intro t ht
        exact capIdc_df_le c share rate rab w n hw hs0 hs1 hr0 hrw hc t
          (Finset.mem_range.mp ht)
    _ = (n : ℝ) * (w * pvOccP c w n) - w / 2 * pvOccP c w n := by
        rw [Finset.sum_sub_distrib, Finset.sum_const, Finset.card_range, ← Finset.mul_sum]
        rw [nsmul_eq_mul]
        rfl

/-- `compWacc` is exactly `(1+w)^Tc` times `dfSoc`, term by term. -/
theorem compWaccAt_eq (w : ℝ) (hu : 0 < 1 + w) (n t : ℕ) (ht : t < n) :
    compWaccAt w n t = dfSocAt w t * (1 + w) ^ n := by
  unfold compWaccAt dfSocAt
  have hs : Real.sqrt (1 + w) ≠ 0 := (Real.sqrt_pos.mpr hu).ne'
  have hp : (1 + w) ^ t ≠ 0 := (pow_pos hu t).ne'
  field_simp
  calc (1 + w) ^ (n - 1 - t) * Real.sqrt (1 + w) * ((1 + w) ^ t * Real.sqrt (1 + w))
      = (1 + w) ^ (n - 1 - t) * (1 + w) ^ t * (Real.sqrt (1 + w) * Real.sqrt (1 + w)) := by
        ring
    _ = (1 + w) ^ (n - 1 - t) * (1 + w) ^ t * (1 + w) := by rw [Real.mul_self_sqrt hu.le]
    _ = (1 + w) ^ (n - 1 - t + t + 1) := by rw [pow_add, pow_add, pow_one]
    _ = (1 + w) ^ n := by
        congr 1
        omega

/-- The economic FV at COD is exactly the PV of the draws compounded over the
whole construction period. -/
theorem fvEconP_eq (c : ℕ → ℝ) (w : ℝ) (hu : 0 < 1 + w) (n : ℕ) :
    fvEconP c w n = pvOccP c w n * (1 + w) ^ n := by
  unfold fvEconP pvOccP
  rw [Finset.sum_mul]
  refine Finset.sum_congr rfl ?_
  intro t ht
  rw [compWaccAt_eq w hu n t (Finset.mem_range.mp ht)]
  ring

/-- Strict inequality `pvOccSOC + pvFinancingSOC < fvEconomicCOD` for a
nonnegative draw schedule with positive PV, when the effective capitalization
rate does not exceed the blended WACC. -/
theorem pvCapex_lt_fvEcon (c : ℕ → ℝ) (share rate rab w : ℝ) (n : ℕ)
    (hn : 1 ≤ n) (hw : 0 < w) (hs0 : 0 ≤ share) (hs1 : share ≤ 1)
    (hr0 : 0 ≤ rate * (1 - rab)) (hrw : rate * (1 - rab) ≤ w)
    (hc : ∀ t, t < n → 0 ≤ c t) (hP : 0 < pvOccP c w n) :
    pvOccP c w n + pvFinP c share rate rab w n < fvEconP c w n := by
  have hu : 0 < 1 + w := by linarith
  have hfin := pvFinP_le c share rate rab w n hw hs0 hs1 hr0 hrw hc
  have hber : 1 + (n : ℝ) * w ≤ (1 + w) ^ n :=
    one_add_mul_le_pow (by linarith) n
  have hfv := fvEconP_eq c w hu n
  have hnw : w / 2 * pvOccP c w n > 0 := by positivity
  nlinarith [mul_le_mul_of_nonneg_right hber hP.le]

theorem gearingOf_nonneg (inputs : LcoeInputs) : 0 ≤ gearingOf inputs := by
  unfold gearingOf
  have : (0 : ℝ) ≤ min (max inputs.targetGearing 0) 100 :=
    le_min (le_max_right _ 0) (by norm_num)
  linarith

theorem gearingOf_le_one (inputs : LcoeInputs) : gearingOf inputs ≤ 1 := by
  unfold gearingOf
  have : min (max inputs.targetGearing 0) 100 ≤ 100 := min_le_right _ _
  linarith

theorem idcShare_nonneg (inputs : LcoeInputs) (idc : IdcMode) : 0 ≤ idcShare inputs idc := by
  cases idc
  · exact zero_le_one
  · exact gearingOf_nonneg inputs

theorem idcShare_le_one (inputs : LcoeInputs) (idc : IdcMode) : idcShare inputs idc ≤ 1 := by
  cases idc
  · exact le_refl 1
  · exact gearingOf_le_one inputs

theorem sWeight_pos (Tc t : ℕ) (hTc : Tc ≠ 0) (ht : t < Tc) : 0 < sWeight Tc t := by
  unfold sWeight
  have hTc' : (0 : ℝ) < Tc := by
    exact_mod_cast Nat.pos_of_ne_zero hTc
  refine Real.sin_pos_of_pos_of_lt_pi ?_ ?_
  · have hnum : (0 : ℝ) < (t : ℝ) + 0.5 := by positivity
    positivity
  · rw [div_lt_iff hTc']
    have hlt : (t : ℝ) + 0.5 < Tc := by
      have : (t : ℝ) + 1 ≤ Tc := by exact_mod_cast Nat.succ_le_of_lt ht
      linarith
    nlinarith [Real.pi_pos]

theorem sWeightSum_pos (Tc : ℕ) (hTc : Tc ≠ 0) : 0 < sWeightSum Tc := by
  unfold sWeightSum
  refine Finset.sum_pos ?_ ?_
  · intro t ht
    exact sWeight_pos Tc t hTc (Finset.mem_range.mp ht)
  · exact Finset.nonempty_range_iff.mpr hTc

theorem cNom_pos (inputs : LcoeInputs) (mode : InflationMode) (t : ℕ)
    (hTc : TcOf inputs ≠ 0) (ht : t < TcOf inputs)
    (hocc : 0 < inputs.overnightCost) (hpi : 0 < 1 + piOf inputs) :
    0 < cNom inputs mode t := by
  have hsw := sWeight_pos (TcOf inputs) t hTc ht
  have hss := sWeightSum_pos (TcOf inputs) hTc
  have hsq := Real.sqrt_pos.mpr hpi
  cases mode
  · unfold cNom
    have hpow : (0 : ℝ) < (1 + piOf inputs) ^ TcOf inputs := pow_pos hpi _
    positivity
  · unfold cNom
    have hpow : (0 : ℝ) < (1 + piOf inputs) ^ t := pow_pos hpi _
    positivity

/-- Amended claim C1: for `Tc > 0`, blended nominal WACC `> 0`, positive
overnight cost, inflation above -100%, `rabFrac ∈ [0,1]`, and an IDC accrual
rate in `[0, WACC]` (automatic in AFUDC mode, where the rate is the WACC
itself), the construction phase satisfies
`pvCapexSOC < fvEconomicCOD = pvOccSOC * (1+WACC)^Tc` -- equality, not strict
inequality, in the second relation. -/
theorem C1_capex_ordering (inputs : LcoeInputs) (mode : InflationMode)
    (idc : IdcMode) (rab : ℝ)
    (hTc : TcOf inputs ≠ 0)
    (hw : 0 < (calcNominalWacc inputs).waccNomBlend)
    (hocc : 0 < inputs.overnightCost)
    (hpi : 0 < 1 + piOf inputs)
    (hr0 : 0 ≤ idcRate inputs idc)
    (hrw : idcRate inputs idc ≤ (calcNominalWacc inputs).waccNomBlend)
    (hrab0 : 0 ≤ rab) (hrab1 : rab ≤ 1) :
    (buildConstructionPhase inputs mode idc rab).pvCapexSOC
      < (buildConstructionPhase inputs mode idc rab).fvEconomicCOD
    ∧ (buildConstructionPhase inputs mode idc rab).fvEconomicCOD
      = (buildConstructionPhase inputs mode idc rab).pvOccSOC
          * (1 + (calcNominalWacc inputs).waccNomBlend) ^ TcOf inputs := by
  set w := (calcNominalWacc inputs).waccNomBlend with hwdef
  have hu : 0 < 1 + w := by linarith
  have hn : 1 ≤ TcOf inputs := Nat.one_le_iff_ne_zero.mpr hTc
  have hc : ∀ t, t < TcOf inputs → 0 ≤ cNom inputs mode t := fun t ht =>
    (cNom_pos inputs mode t hTc ht hocc hpi).le
  have hP : 0 < pvOccP (cNom inputs mode) w (TcOf inputs) := by
    unfold pvOccP
    refine Finset.sum_pos ?_ (Finset.nonempty_range_iff.mpr hTc)
    intro t ht
    exact mul_pos (cNom_pos inputs mode t hTc (Finset.mem_range.mp ht) hocc hpi)
      (dfSocAt_pos w hu t)
  have hr0' : 0 ≤ idcRate inputs idc * (1 - rab) :=
    mul_nonneg hr0 (by linarith)
  have hrw' : idcRate inputs idc * (1 - rab) ≤ w := by
    have h1 : idcRate inputs idc * (1 - rab) ≤ idcRate inputs idc * 1 :=
      mul_le_mul_of_nonneg_left (by linarith) hr0
    linarith
  have hmain := pvCapex_lt_fvEcon (cNom inputs mode) (idcShare inputs idc)
    (idcRate inputs idc) rab w (TcOf inputs) hn hw
    (idcShare_nonneg inputs idc) (idcShare_le_one inputs idc) hr0' hrw' hc hP
  have hfv := fvEconP_eq (cNom inputs mode) w hu (TcOf inputs)
  unfold buildConstructionPhase
  rw [if_neg hTc]
  exact ⟨hmain, hfv⟩

/-! Part: C8: useful life below 3 years disables the declining-rate option -/

theorem dfCumProduct_of_L_zero (costOfEquityReal kdNom gearing pi : ℝ)
    (d₁ d₂ : Bool) (tcOffset : ℕ) :
    ∀ k, dfCumProduct costOfEquityReal kdNom gearing pi 0 d₁ tcOffset k
      = dfCumProduct costOfEquityReal kdNom gearing pi 0 d₂ tcOffset k := by
  intro k
  induction k with
  | zero => rfl
  | succ k ih =>
      rw [dfCumProduct, dfCumProduct, ih,
        getOpW_of_L_zero costOfEquityReal kdNom gearing pi d₁ d₂]

theorem buildDfArray_of_L_zero (costOfEquityReal kdNom gearing pi : ℝ) (TL : ℕ)
    (hTL : TL / 3 = 0) (d₁ d₂ : Bool) (tcOffset k : ℕ) :
    buildDfArray costOfEquityReal kdNom gearing pi TL d₁ tcOffset k
      = buildDfArray costOfEquityReal kdNom gearing pi TL d₂ tcOffset k := by
  unfold buildDfArray
  rw [hTL, dfCumProduct_of_L_zero costOfEquityReal kdNom gearing pi d₁ d₂,
    getOpW_of_L_zero costOfEquityReal kdNom gearing pi d₁ d₂]

theorem computeTurnkeyLcoe_of_L_zero (inputs : LcoeInputs) (fvE fvS oc : ℝ)
    (hTL : TLof inputs / 3 = 0) (d₁ d₂ : Bool) :
    computeTurnkeyLcoe inputs fvE fvS oc d₁ = computeTurnkeyLcoe inputs fvE fvS oc d₂ := by
  have hb : buyerDfOf inputs d₁ = buyerDfOf inputs d₂ := by
    funext k
    exact buildDfArray_of_L_zero _ _ _ _ _ hTL d₁ d₂ 0 k
  simp only [computeTurnkeyLcoe, annualPaymentOf, pvSaleTranchesOf, tkPvEnergyOf,
    tkPvOmOf, tkPvFuelOf, tkPvDecomOf, annuityFactorOf, hb]

/-- Claim C8: With integer useful life below 3 years (the spec data model takes
`usefulLife` to be an integer), the declining-rate option has no effect: the
discount-factor sequence and the full `calculateLcoe` result at step 3 agree
with the declining option disabled. -/
theorem C8_decline_guard (inputs : LcoeInputs) (n : ℕ)
    (hn : inputs.usefulLife = (n : ℝ)) (h3 : n < 3)
    (adv adv' : AdvancedToggles)
    (h1 : adv.rabEnabled = adv'.rabEnabled) (h2 : adv.turnkey = adv'.turnkey)
    (h4 : adv.twoLives = adv'.twoLives)
    (h5 : adv.valuationPoint = adv'.valuationPoint) :
    (∀ tcOffset k,
      buildDfArray (inputs.costOfEquity / 100) (calcNominalWacc inputs).costOfDebtNom
        (gearingOf inputs) (piOf inputs) (TLof inputs) true tcOffset k
      = buildDfArray (inputs.costOfEquity / 100) (calcNominalWacc inputs).costOfDebtNom
        (gearingOf inputs) (piOf inputs) (TLof inputs) false tcOffset k)
    ∧ calculateLcoe inputs 3 adv none = calculateLcoe inputs 3 adv' none := by
  have hTL : TLof inputs = n := by
    unfold TLof
    rw [hn, round_natCast]
    exact Int.toNat_natCast n
  have hdiv : TLof inputs / 3 = 0 := by
    rw [hTL]
    exact Nat.div_eq_of_lt h3
  refine ⟨fun tcOffset k =>
    buildDfArray_of_L_zero _ _ _ _ _ hdiv true false tcOffset k, ?_⟩
  have hrab : rabFracOf 3 adv = rabFracOf 3 adv' := by
    unfold rabFracOf
    rw [h1]
  have hdfc : calculateDf inputs 3 adv = calculateDf inputs 3 adv' := by
    funext k
    unfold calculateDf
    exact buildDfArray_of_L_zero _ _ _ _ _ hdiv _ _ _ k
  unfold calculateLcoe
  rw [hrab, hdfc, h2, h4]
  by_cases ht : 3 = 3 ∧ adv'.turnkey = true
  · rw [if_pos ht, if_pos ht]
    exact computeTurnkeyLcoe_of_L_zero inputs _ _ _ hdiv _ _
  · rw [if_neg ht, if_neg ht]

/-- Witness for C8 at `usefulLife = 2`. -/
theorem C8_decline_guard_witness :
    calculateLcoe
      { usefulLife := 2, overnightCost := 6500, constructionTime := 8
        costOfEquity := 9, costOfDebt := 4, targetGearing := 60, fuelCost := 10
        omCost := 140, loadHours := 7884, decommissioningCost := 1000
        rabProportion := 50, inflationRate := 2, extensionCapEx := 0 } 3
      { rabEnabled := false, decliningWacc := true, turnkey := false
        twoLives := false, valuationPoint := .soc } none
    = calculateLcoe
      { usefulLife := 2, overnightCost := 6500, constructionTime := 8
        costOfEquity := 9, costOfDebt := 4, targetGearing := 60, fuelCost := 10
        omCost := 140, loadHours := 7884, decommissioningCost := 1000
        rabProportion := 50, inflationRate := 2, extensionCapEx := 0 } 3
      { rabEnabled := false, decliningWacc := false, turnkey := false
        twoLives := false, valuationPoint := .soc } none :=
  (C8_decline_guard _ 2 (by norm_num) (by norm_num)
    { rabEnabled := false, decliningWacc := true, turnkey := false
      twoLives := false, valuationPoint := .soc }
    { rabEnabled := false, decliningWacc := false, turnkey := false
      twoLives := false, valuationPoint := .soc } rfl rfl rfl rfl).2

/-! Part: C2: turnkey developer sale price -/

/-- Amended claim C2: for useful life at least 3 years (so that
`nTranches = min(3, TL) = 3`), positive annual energy, positive annuity factor
and positive buyer energy PV, the turnkey computation nets the developer
recovery to `max(0, fvEconomicCOD - fvSurchargedCOD)`, solves
`instalment * (sum of the first 3 buyer discount factors) = net recovery`, and
returns `developerSalePrice = 3 * instalment`; the instalment stream priced on
the same buyer curve recovers the net target exactly. -/
theorem C2_turnkey_sale_price (inputs : LcoeInputs) (fvE fvS oc : ℝ) (declining : Bool)
    (hTL3 : 3 ≤ TLof inputs) (hM : 0 < annualMwhOf inputs)
    (hA : 0 < annuityFactorOf inputs declining)
    (hE : 0 < tkPvEnergyOf inputs declining) :
    (computeTurnkeyLcoe inputs fvE fvS oc declining).developerSalePrice
      = some (3 * (fvEconomicNetCODof fvE fvS
          / (buyerDfOf inputs declining 0 + buyerDfOf inputs declining 1
              + buyerDfOf inputs declining 2)))
    ∧ annuityFactorOf inputs declining
        = buyerDfOf inputs declining 0 + buyerDfOf inputs declining 1
            + buyerDfOf inputs declining 2
    ∧ annualPaymentOf inputs fvE fvS declining * annuityFactorOf inputs declining
        = fvEconomicNetCODof fvE fvS
    ∧ pvSaleTranchesOf inputs fvE fvS declining = fvEconomicNetCODof fvE fvS := by
  have hnT : nTranchesOf inputs = 3 := min_eq_left hTL3
  have hsum : annuityFactorOf inputs declining
      = buyerDfOf inputs declining 0 + buyerDfOf inputs declining 1
          + buyerDfOf inputs declining 2 := by
    unfold annuityFactorOf
    rw [hnT, Finset.sum_range_succ, Finset.sum_range_succ, Finset.sum_range_one]
  have hpay : annualPaymentOf inputs fvE fvS declining
      = fvEconomicNetCODof fvE fvS / annuityFactorOf inputs declining := by
    unfold annualPaymentOf
    rw [if_pos hA]
  have hsolve : annualPaymentOf inputs fvE fvS declining * annuityFactorOf inputs declining
      = fvEconomicNetCODof fvE fvS := by
    rw [hpay]
    exact div_mul_cancel₀ _ hA.ne'
  have hsale : pvSaleTranchesOf inputs fvE fvS declining = fvEconomicNetCODof fvE fvS := by
    unfold pvSaleTranchesOf
    rw [hnT, Finset.sum_range_succ, Finset.sum_range_succ, Finset.sum_range_one]
    calc annualPaymentOf inputs fvE fvS declining * buyerDfOf inputs declining 0
          + annualPaymentOf inputs fvE fvS declining * buyerDfOf inputs declining 1
          + annualPaymentOf inputs fvE fvS declining * buyerDfOf inputs declining 2
        = annualPaymentOf inputs fvE fvS declining
            * (buyerDfOf inputs declining 0 + buyerDfOf inputs declining 1
                + buyerDfOf inputs declining 2) := by ring
      _ = annualPaymentOf inputs fvE fvS declining * annuityFactorOf inputs declining := by
          rw [hsum]
      _ = fvEconomicNetCODof fvE fvS := hsolve
  refine ⟨?_, hsum, hsolve, hsale⟩
  have hTLne : TLof inputs ≠ 0 := by omega
  have hg1 : ¬(annualMwhOf inputs ≤ 0 ∨ TLof inputs = 0) := by
    push_neg
    exact ⟨hM, hTLne⟩
  unfold computeTurnkeyLcoe
  rw [if_neg hg1, if_neg (not_le.mpr hE)]
  dsimp only
  rw [hpay, hnT, hsum]
  norm_num
  ring

/-- Witness for C2: flat zero rates, three-year life. -/
theorem C2_turnkey_sale_price_witness :
    (computeTurnkeyLcoe
      { usefulLife := 3, overnightCost := 100, constructionTime := 0
        costOfEquity := 0, costOfDebt := 0, targetGearing := 0, fuelCost := 0
        omCost := 0, loadHours := 1000, decommissioningCost := 0
        rabProportion := 0, inflationRate := 0, extensionCapEx := 0 } 100 0 1
      false).developerSalePrice
    = some (3 * (fvEconomicNetCODof 100 0
        / (buyerDfOf
            { usefulLife := 3, overnightCost := 100, constructionTime := 0
              costOfEquity := 0, costOfDebt := 0, targetGearing := 0, fuelCost := 0
              omCost := 0, loadHours := 1000, decommissioningCost := 0
              rabProportion := 0, inflationRate := 0, extensionCapEx := 0 } false 0
          + buyerDfOf
            { usefulLife := 3, overnightCost := 100, constructionTime := 0
              costOfEquity := 0, costOfDebt := 0, targetGearing := 0, fuelCost := 0
              omCost := 0, loadHours := 1000, decommissioningCost := 0
              rabProportion := 0, inflationRate := 0, extensionCapEx := 0 } false 1
          + buyerDfOf
            { usefulLife := 3, overnightCost := 100, constructionTime := 0
              costOfEquity := 0, costOfDebt := 0, targetGearing := 0, fuelCost := 0
              omCost := 0, loadHours := 1000, decommissioningCost := 0
              rabProportion := 0, inflationRate := 0, extensionCapEx := 0 } false 2))) := by
  have hTL : TLof
      { usefulLife := 3, overnightCost := 100, constructionTime := 0
        costOfEquity := 0, costOfDebt := 0, targetGearing := 0, fuelCost := 0
        omCost := 0, loadHours := 1000, decommissioningCost := 0
        rabProportion := 0, inflationRate := 0, extensionCapEx := 0 } = 3 := by
    unfold TLof
    rw [show ((3 : ℝ) : ℝ) = ((3 : ℕ) : ℝ) by norm_num, round_natCast]
    rfl
  have hdf : ∀ k, buyerDfOf
      { usefulLife := 3, overnightCost := 100, constructionTime := 0
        costOfEquity := 0, costOfDebt := 0, targetGearing := 0, fuelCost := 0
        omCost := 0, loadHours := 1000, decommissioningCost := 0
        rabProportion := 0, inflationRate := 0, extensionCapEx := 0 } false k = 1 := by
    intro k
    unfold buyerDfOf
    rw [buildDfArray, dfCumProduct_false, getOpW_false]
    norm_num [baseWaccOf, calcNominalWacc, gearingOf, piOf, Real.sqrt_one]
  have hM : (0 : ℝ) < annualMwhOf
      { usefulLife := 3, overnightCost := 100, constructionTime := 0
        costOfEquity := 0, costOfDebt := 0, targetGearing := 0, fuelCost := 0
        omCost := 0, loadHours := 1000, decommissioningCost := 0
        rabProportion := 0, inflationRate := 0, extensionCapEx := 0 } := by
    unfold annualMwhOf
    norm_num
  have hA : (0 : ℝ) < annuityFactorOf
      { usefulLife := 3, overnightCost := 100, constructionTime := 0
        costOfEquity := 0, costOfDebt := 0, targetGearing := 0, fuelCost := 0
        omCost := 0, loadHours := 1000, decommissioningCost := 0
        rabProportion := 0, inflationRate := 0, extensionCapEx := 0 } false := by
    unfold annuityFactorOf nTranchesOf
    rw [hTL]
    norm_num [hdf]
  have hE : (0 : ℝ) < tkPvEnergyOf
      { usefulLife := 3, overnightCost := 100, constructionTime := 0
        costOfEquity := 0, costOfDebt := 0, targetGearing := 0, fuelCost := 0
        omCost := 0, loadHours := 1000, decommissioningCost := 0
        rabProportion := 0, inflationRate := 0, extensionCapEx := 0 } false := by
    unfold tkPvEnergyOf
    rw [hTL]
    norm_num [hdf]
    unfold annualMwhOf
    norm_num
  exact (C2_turnkey_sale_price _ 100 0 1 false (le_of_eq hTL.symm) hM hA hE).1

/-! Part: C6: dual-life aggregation is the PV-weighted combination -/

theorem ite_sum_split (n N : ℕ) (f : ℕ → ℝ) :
    ((∑ k ∈ Finset.range n, if k < N then f k else 0)
      + ∑ k ∈ Finset.range n, if k < N then 0 else f k)
    = ∑ k ∈ Finset.range n, f k := by
  rw [← Finset.sum_add_distrib]
  refine Finset.sum_congr rfl ?_
  intro k _
  by_cases h : k < N <;> simp [h]

theorem pvE_split (inputs : LcoeInputs) (df : ℕ → ℝ) :
    pvE1of inputs df + pvE2of inputs df = pvEnergyOf inputs df :=
  ite_sum_split (TLof inputs) (N1of inputs) fun k => annualMwhOf inputs * df k

theorem pvO_split (inputs : LcoeInputs) (df : ℕ → ℝ) :
    pvO1of inputs df + pvO2of inputs df = pvOmOf inputs df :=
  ite_sum_split (TLof inputs) (N1of inputs) fun k => inputs.omCost * escAt inputs k * df k

theorem pvF_split (inputs : LcoeInputs) (df : ℕ → ℝ) :
    pvF1of inputs df + pvF2of inputs df = pvFuelOf inputs df :=
  ite_sum_split (TLof inputs) (N1of inputs) fun k =>
    inputs.fuelCost * annualMwhOf inputs * escAt inputs k * df k

theorem pvD_split (inputs : LcoeInputs) (df : ℕ → ℝ) :
    pvD1of inputs df + pvD2of inputs df = pvDecomOf inputs df :=
  ite_sum_split (TLof inputs) (N1of inputs) fun k => annualDecomOf inputs * df k

/-- Amended claim C6: the dual-life totals and primary buckets equal the
single-life computation over the same inputs and discount factors, and
`totalLcoe` is the energy-PV-weighted mean of the two half LCOE figures --
which coincides with the naive arithmetic mean only in degenerate cases such
as equal half energy PVs (see the counterexample), not never. -/
theorem C6_dual_life_pv_consistent (inputs : LcoeInputs) (pvOcc pvFin pvSur : ℝ)
    (df : ℕ → ℝ) :
    ((computeCoreLcoe inputs pvOcc pvFin pvSur df true).totalLcoe
        = (computeCoreLcoe inputs pvOcc pvFin pvSur df false).totalLcoe
      ∧ (computeCoreLcoe inputs pvOcc pvFin pvSur df true).occLcoe
        = (computeCoreLcoe inputs pvOcc pvFin pvSur df false).occLcoe
      ∧ (computeCoreLcoe inputs pvOcc pvFin pvSur df true).financingLcoe
        = (computeCoreLcoe inputs pvOcc pvFin pvSur df false).financingLcoe
      ∧ (computeCoreLcoe inputs pvOcc pvFin pvSur df true).fuelLcoe
        = (computeCoreLcoe inputs pvOcc pvFin pvSur df false).fuelLcoe
      ∧ (computeCoreLcoe inputs pvOcc pvFin pvSur df true).omLcoe
        = (computeCoreLcoe inputs pvOcc pvFin pvSur df false).omLcoe
      ∧ (computeCoreLcoe inputs pvOcc pvFin pvSur df true).decommissioningLcoe
        = (computeCoreLcoe inputs pvOcc pvFin pvSur df false).decommissioningLcoe)
    ∧ (0 < annualMwhOf inputs → 0 < pvE1of inputs df → 0 < pvE2of inputs df →
        (computeCoreLcoe inputs pvOcc pvFin pvSur df true).totalLcoe
          = (pvE1of inputs df
                * ((pvOcc + pvFin + pvO1of inputs df + pvF1of inputs df + pvD1of inputs df)
                    / pvE1of inputs df)
              + pvE2of inputs df
                * ((pvO2of inputs df + pvF2of inputs df + pvD2of inputs df)
                    / pvE2of inputs df))
            / (pvE1of inputs df + pvE2of inputs df)
        ∧ (computeCoreLcoe inputs pvOcc pvFin pvSur df true).halfLcoe1
          = some ((pvOcc + pvFin + pvO1of inputs df + pvF1of inputs df + pvD1of inputs df)
              / pvE1of inputs df)
        ∧ (computeCoreLcoe inputs pvOcc pvFin pvSur df true).halfLcoe2
          = some ((pvO2of inputs df + pvF2of inputs df + pvD2of inputs df)
              / pvE2of inputs df)) := by
  constructor
  · unfold computeCoreLcoe
    by_cases h1 : annualMwhOf inputs ≤ 0 ∨ TLof inputs = 0
    · rw [if_pos h1, if_pos h1]
      exact ⟨rfl, rfl, rfl, rfl, rfl, rfl⟩
    · rw [if_neg h1, if_neg h1]
      rw [if_neg (by simp : ¬(true = false)), if_pos rfl]
      dsimp only
      rw [show pvE1of inputs df + pvE2of inputs df = pvEnergyOf inputs df from
        pvE_split inputs df]
      by_cases h2 : pvEnergyOf inputs df ≤ 0
      · rw [if_pos h2, if_pos h2]
        exact ⟨rfl, rfl, rfl, rfl, rfl, rfl⟩
      · rw [if_neg h2, if_neg h2]
        have hO := pvO_split inputs df
        have hF := pvF_split inputs df
        have hD := pvD_split inputs df
        refine ⟨?_, rfl, rfl, ?_, ?_, ?_⟩
        · dsimp only
          rw [hO, hF, hD]
          ring
        · dsimp only
          rw [hF]
        · dsimp only
          rw [hO]
        · dsimp only
          rw [hD]
  · intro hM hE1 hE2
    have hTLne : TLof inputs ≠ 0 := by
      intro h0
      have : pvE1of inputs df = 0 := by
        simp [pvE1of, h0]
      linarith
    have h1 : ¬(annualMwhOf inputs ≤ 0 ∨ TLof inputs = 0) := by
      push_neg
      exact ⟨hM, hTLne⟩
    unfold computeCoreLcoe
    rw [if_neg h1, if_neg (by simp : ¬(true = false))]
    dsimp only
    rw [if_neg (not_le.mpr (by linarith : (0 : ℝ) < pvE1of inputs df + pvE2of inputs df))]
    dsimp only
    rw [if_pos hE1, if_pos hE2]
    refine ⟨?_, rfl, rfl⟩
    have hne1 : pvE1of inputs df ≠ 0 := hE1.ne'
    have hne2 : pvE2of inputs df ≠ 0 := hE2.ne'
    field_simp
    ring

/-- Witness for C6: flat discount factors with a two-year life. -/
theorem C6_dual_life_pv_consistent_witness :
    0 < annualMwhOf exDualFlat
    ∧ 0 < pvE1of exDualFlat (fun _ => 1)
    ∧ 0 < pvE2of exDualFlat (fun _ => 1)
    ∧ (computeCoreLcoe exDualFlat 100 0 0 (fun _ => 1) true).totalLcoe
        = (computeCoreLcoe exDualFlat 100 0 0 (fun _ => 1) false).totalLcoe
    ∧ (computeCoreLcoe exDualFlat 100 0 0 (fun _ => 1) true).halfLcoe1
        = some ((100 + 0 + pvO1of exDualFlat (fun _ => 1) + pvF1of exDualFlat (fun _ => 1)
            + pvD1of exDualFlat (fun _ => 1)) / pvE1of exDualFlat (fun _ => 1)) := by
  have hTL : TLof exDualFlat = 2 := by
    unfold TLof exDualFlat
    rw [show ((2 : ℝ)) = ((2 : ℕ) : ℝ) by norm_num, round_natCast]
    rfl
  have hM : 0 < annualMwhOf exDualFlat := by
    unfold annualMwhOf exDualFlat
    norm_num
  have hE1 : 0 < pvE1of exDualFlat (fun _ => 1) := by
    unfold pvE1of N1of
    rw [hTL]
    norm_num [Finset.sum_range_succ, annualMwhOf, exDualFlat]
  have hE2 : 0 < pvE2of exDualFlat (fun _ => 1) := by
    unfold pvE2of N1of
    rw [hTL]
    norm_num [Finset.sum_range_succ, annualMwhOf, exDualFlat]
  exact ⟨hM, hE1, hE2, (C6_dual_life_pv_consistent exDualFlat 100 0 0 (fun _ => 1)).1.1,
    ((C6_dual_life_pv_consistent exDualFlat 100 0 0 (fun _ => 1)).2 hM hE1 hE2).2.1⟩

/-! Part: Counterexamples -/

/-- Counterexample to C1 as stated: at a one-year build with WACC = 100%
the construction phase has `fvEconomicCOD = pvOccSOC * (1+WACC)^Tc` exactly,
so the claimed strict inequality `fvEconomicCOD < pvOccSOC * (1+WACC)^Tc`
fails even though `Tc > 0` and the blended nominal WACC is positive. -/
theorem C1_counterexample :
    TcOf
      { usefulLife := 1, overnightCost := 100, constructionTime := 1
        costOfEquity := 100, costOfDebt := 0, targetGearing := 0, fuelCost := 0
        omCost := 0, loadHours := 1000, decommissioningCost := 0
        rabProportion := 0, inflationRate := 0, extensionCapEx := 0 } ≠ 0
    ∧ 0 < (calcNominalWacc
      { usefulLife := 1, overnightCost := 100, constructionTime := 1
        costOfEquity := 100, costOfDebt := 0, targetGearing := 0, fuelCost := 0
        omCost := 0, loadHours := 1000, decommissioningCost := 0
        rabProportion := 0, inflationRate := 0, extensionCapEx := 0 }).waccNomBlend
    ∧ ¬((buildConstructionPhase
      { usefulLife := 1, overnightCost := 100, constructionTime := 1
        costOfEquity := 100, costOfDebt := 0, targetGearing := 0, fuelCost := 0
        omCost := 0, loadHours := 1000, decommissioningCost := 0
        rabProportion := 0, inflationRate := 0, extensionCapEx := 0 }
        InflationMode.dynamic IdcMode.debtOnly 0).fvEconomicCOD
      < (buildConstructionPhase
      { usefulLife := 1, overnightCost := 100, constructionTime := 1
        costOfEquity := 100, costOfDebt := 0, targetGearing := 0, fuelCost := 0
        omCost := 0, loadHours := 1000, decommissioningCost := 0
        rabProportion := 0, inflationRate := 0, extensionCapEx := 0 }
        InflationMode.dynamic IdcMode.debtOnly 0).pvOccSOC
        * (1 + (calcNominalWacc
          { usefulLife := 1, overnightCost := 100, constructionTime := 1
            costOfEquity := 100, costOfDebt := 0, targetGearing := 0, fuelCost := 0
            omCost := 0, loadHours := 1000, decommissioningCost := 0
            rabProportion := 0, inflationRate := 0, extensionCapEx := 0 }).waccNomBlend)
          ^ TcOf
            { usefulLife := 1, overnightCost := 100, constructionTime := 1
              costOfEquity := 100, costOfDebt := 0, targetGearing := 0, fuelCost := 0
              omCost := 0, loadHours := 1000, decommissioningCost := 0
              rabProportion := 0, inflationRate := 0, extensionCapEx := 0 }) := by
  have hTc : TcOf
      { usefulLife := 1, overnightCost := 100, constructionTime := 1
        costOfEquity := 100, costOfDebt := 0, targetGearing := 0, fuelCost := 0
        omCost := 0, loadHours := 1000, decommissioningCost := 0
        rabProportion := 0, inflationRate := 0, extensionCapEx := 0 } = 1 := by
    unfold TcOf
    rw [round_one]
    rfl
  have h0 : TcOf
      { usefulLife := 1, overnightCost := 100, constructionTime := 1
        costOfEquity := 100, costOfDebt := 0, targetGearing := 0, fuelCost := 0
        omCost := 0, loadHours := 1000, decommissioningCost := 0
        rabProportion := 0, inflationRate := 0, extensionCapEx := 0 } ≠ 0 := by
    rw [hTc]
    exact one_ne_zero
  have hw : (calcNominalWacc
      { usefulLife := 1, overnightCost := 100, constructionTime := 1
        costOfEquity := 100, costOfDebt := 0, targetGearing := 0, fuelCost := 0
        omCost := 0, loadHours := 1000, decommissioningCost := 0
        rabProportion := 0, inflationRate := 0, extensionCapEx := 0 }).waccNomBlend = 1 := by
    unfold calcNominalWacc gearingOf piOf
    norm_num
  refine ⟨h0, by rw [hw]; norm_num, ?_⟩
  unfold buildConstructionPhase
  rw [if_neg h0]
  dsimp only
  rw [fvEconP_eq _ _ (by rw [hw]; norm_num) _]
  exact lt_irrefl _

/-- Counterexample to C9 as stated: `rabFrac` is NOT clamped into [0,1].
With a one-year build, WACC = 100% and zero gearing, passing `rabFrac = 2`
yields `pvFinancingSOC = -50/sqrt 2`, while the clamped value 1 yields 0, so
the two `ConstructionResult`s differ. -/
theorem C9_counterexample :
    buildConstructionPhase
      { usefulLife := 1, overnightCost := 100, constructionTime := 1
        costOfEquity := 100, costOfDebt := 0, targetGearing := 0, fuelCost := 0
        omCost := 0, loadHours := 1000, decommissioningCost := 0
        rabProportion := 0, inflationRate := 0, extensionCapEx := 0 }
      InflationMode.dynamic IdcMode.afudcWholeWacc 2
    ≠ buildConstructionPhase
      { usefulLife := 1, overnightCost := 100, constructionTime := 1
        costOfEquity := 100, costOfDebt := 0, targetGearing := 0, fuelCost := 0
        omCost := 0, loadHours := 1000, decommissioningCost := 0
        rabProportion := 0, inflationRate := 0, extensionCapEx := 0 }
      InflationMode.dynamic IdcMode.afudcWholeWacc 1 := by
  have hTc : TcOf
      { usefulLife := 1, overnightCost := 100, constructionTime := 1
        costOfEquity := 100, costOfDebt := 0, targetGearing := 0, fuelCost := 0
        omCost := 0, loadHours := 1000, decommissioningCost := 0
        rabProportion := 0, inflationRate := 0, extensionCapEx := 0 } = 1 := by
    unfold TcOf
    rw [round_one]
    rfl
  have h0 : TcOf
      { usefulLife := 1, overnightCost := 100, constructionTime := 1
        costOfEquity := 100, costOfDebt := 0, targetGearing := 0, fuelCost := 0
        omCost := 0, loadHours := 1000, decommissioningCost := 0
        rabProportion := 0, inflationRate := 0, extensionCapEx := 0 } ≠ 0 := by
    rw [hTc]
    exact one_ne_zero
  have hw : (calcNominalWacc
      { usefulLife := 1, overnightCost := 100, constructionTime := 1
        costOfEquity := 100, costOfDebt := 0, targetGearing := 0, fuelCost := 0
        omCost := 0, loadHours := 1000, decommissioningCost := 0
        rabProportion := 0, inflationRate := 0, extensionCapEx := 0 }).waccNomBlend = 1 := by
    unfold calcNominalWacc gearingOf piOf
    norm_num
  have hsw : sWeight 1 0 = 1 := by
    unfold sWeight
    have harg : Real.pi * (((0 : ℕ) : ℝ) + 0.5) / ((1 : ℕ) : ℝ) = Real.pi / 2 := by
      push_cast
      ring
    rw [harg, Real.sin_pi_div_two]
  have hss : sWeightSum 1 = 1 := by
    unfold sWeightSum
    rw [Finset.sum_range_one, hsw]
  have hc0 : cNom
      { usefulLife := 1, overnightCost := 100, constructionTime := 1
        costOfEquity := 100, costOfDebt := 0, targetGearing := 0, fuelCost := 0
        omCost := 0, loadHours := 1000, decommissioningCost := 0
        rabProportion := 0, inflationRate := 0, extensionCapEx := 0 }
      InflationMode.dynamic 0 = 100 := by
    unfold cNom piOf
    dsimp only
    rw [hTc, hsw, hss]
    norm_num [Real.sqrt_one]
  have hs2 : (0 : ℝ) < Real.sqrt 2 := Real.sqrt_pos.mpr (by norm_num)
  have hfin : ∀ rab : ℝ, (buildConstructionPhase
      { usefulLife := 1, overnightCost := 100, constructionTime := 1
        costOfEquity := 100, costOfDebt := 0, targetGearing := 0, fuelCost := 0
        omCost := 0, loadHours := 1000, decommissioningCost := 0
        rabProportion := 0, inflationRate := 0, extensionCapEx := 0 }
      InflationMode.dynamic IdcMode.afudcWholeWacc rab).pvFinancingSOC
      = 50 * (1 - rab) / Real.sqrt 2 := by
    intro rab
    unfold buildConstructionPhase
    rw [if_neg h0]
    dsimp only
    unfold pvFinP
    rw [hTc, Finset.sum_range_one]
    unfold capIdc idcBalance dfSocAt idcShare idcRate
    rw [hw, hc0]
    rw [show (1 : ℝ) + 1 = 2 by norm_num]
    norm_num
    ring
  intro h
  have h2 := hfin 2
  rw [h, hfin 1] at h2
  rw [div_eq_div_iff hs2.ne' hs2.ne'] at h2
  nlinarith [hs2]

/-- Counterexample to C2 as stated: with `usefulLife = 1` (which satisfies
the claimed hypotheses `usefulLife > 0` and positive annuity factor) the code
uses `nTranches = min(3, TL) = 1`, so the sale price is a single instalment
solved against one discount factor, not `3 x instalment` against the first
three buyer factors. -/
theorem C2_counterexample :
    (0 : ℝ) <
      ({ usefulLife := 1, overnightCost := 100, constructionTime := 0
         costOfEquity := 100, costOfDebt := 0, targetGearing := 0, fuelCost := 0
         omCost := 0, loadHours := 1000, decommissioningCost := 0
         rabProportion := 0, inflationRate := 0, extensionCapEx := 0 } : LcoeInputs).usefulLife
    ∧ 0 < annuityFactorOf
      { usefulLife := 1, overnightCost := 100, constructionTime := 0
        costOfEquity := 100, costOfDebt := 0, targetGearing := 0, fuelCost := 0
        omCost := 0, loadHours := 1000, decommissioningCost := 0
        rabProportion := 0, inflationRate := 0, extensionCapEx := 0 } false
    ∧ (computeTurnkeyLcoe
      { usefulLife := 1, overnightCost := 100, constructionTime := 0
        costOfEquity := 100, costOfDebt := 0, targetGearing := 0, fuelCost := 0
        omCost := 0, loadHours := 1000, decommissioningCost := 0
        rabProportion := 0, inflationRate := 0, extensionCapEx := 0 } 100 0 1
      false).developerSalePrice
      ≠ some (3 * (fvEconomicNetCODof 100 0
          / (buyerDfOf
              { usefulLife := 1, overnightCost := 100, constructionTime := 0
                costOfEquity := 100, costOfDebt := 0, targetGearing := 0, fuelCost := 0
                omCost := 0, loadHours := 1000, decommissioningCost := 0
                rabProportion := 0, inflationRate := 0, extensionCapEx := 0 } false 0
            + buyerDfOf
              { usefulLife := 1, overnightCost := 100, constructionTime := 0
                costOfEquity := 100, costOfDebt := 0, targetGearing := 0, fuelCost := 0
                omCost := 0, loadHours := 1000, decommissioningCost := 0
                rabProportion := 0, inflationRate := 0, extensionCapEx := 0 } false 1
            + buyerDfOf
              { usefulLife := 1, overnightCost := 100, constructionTime := 0
                costOfEquity := 100, costOfDebt := 0, targetGearing := 0, fuelCost := 0
                omCost := 0, loadHours := 1000, decommissioningCost := 0
                rabProportion := 0, inflationRate := 0, extensionCapEx := 0 } false 2))) := by
  have hTL : TLof
      { usefulLife := 1, overnightCost := 100, constructionTime := 0
        costOfEquity := 100, costOfDebt := 0, targetGearing := 0, fuelCost := 0
        omCost := 0, loadHours := 1000, decommissioningCost := 0
        rabProportion := 0, inflationRate := 0, extensionCapEx := 0 } = 1 := by
    unfold TLof
    rw [round_one]
    rfl
  have hs2 : (0 : ℝ) < Real.sqrt 2 := Real.sqrt_pos.mpr (by norm_num)
  have hdfk : ∀ k, buyerDfOf
      { usefulLife := 1, overnightCost := 100, constructionTime := 0
        costOfEquity := 100, costOfDebt := 0, targetGearing := 0, fuelCost := 0
        omCost := 0, loadHours := 1000, decommissioningCost := 0
        rabProportion := 0, inflationRate := 0, extensionCapEx := 0 } false k
      = 1 / (2 ^ k * Real.sqrt 2) := by
    intro k
    unfold buyerDfOf
    rw [buildDfArray, dfCumProduct_false, getOpW_false]
    unfold baseWaccOf calcNominalWacc gearingOf piOf
    norm_num
  have hnT : nTranchesOf
      { usefulLife := 1, overnightCost := 100, constructionTime := 0
        costOfEquity := 100, costOfDebt := 0, targetGearing := 0, fuelCost := 0
        omCost := 0, loadHours := 1000, decommissioningCost := 0
        rabProportion := 0, inflationRate := 0, extensionCapEx := 0 } = 1 := by
    unfold nTranchesOf
    rw [hTL]
    decide
  have hA : annuityFactorOf
      { usefulLife := 1, overnightCost := 100, constructionTime := 0
        costOfEquity := 100, costOfDebt := 0, targetGearing := 0, fuelCost := 0
        omCost := 0, loadHours := 1000, decommissioningCost := 0
        rabProportion := 0, inflationRate := 0, extensionCapEx := 0 } false
      = 1 / Real.sqrt 2 := by
    unfold annuityFactorOf
    rw [hnT, Finset.sum_range_one, hdfk 0]
    norm_num
  have hApos : (0 : ℝ) < annuityFactorOf
      { usefulLife := 1, overnightCost := 100, constructionTime := 0
        costOfEquity := 100, costOfDebt := 0, targetGearing := 0, fuelCost := 0
        omCost := 0, loadHours := 1000, decommissioningCost := 0
        rabProportion := 0, inflationRate := 0, extensionCapEx := 0 } false := by
    rw [hA]
    positivity
  refine ⟨by norm_num, hApos, ?_⟩
  have hnet : fvEconomicNetCODof (100 : ℝ) 0 = 100 := by
    unfold fvEconomicNetCODof
    norm_num
  have hM : ¬(annualMwhOf
      { usefulLife := 1, overnightCost := 100, constructionTime := 0
        costOfEquity := 100, costOfDebt := 0, targetGearing := 0, fuelCost := 0
        omCost := 0, loadHours := 1000, decommissioningCost := 0
        rabProportion := 0, inflationRate := 0, extensionCapEx := 0 } ≤ 0
      ∨ TLof
      { usefulLife := 1, overnightCost := 100, constructionTime := 0
        costOfEquity := 100, costOfDebt := 0, targetGearing := 0, fuelCost := 0
        omCost := 0, loadHours := 1000, decommissioningCost := 0
        rabProportion := 0, inflationRate := 0, extensionCapEx := 0 } = 0) := by
    push_neg
    constructor
    · unfold annualMwhOf
      norm_num
    · rw [hTL]
      exact one_ne_zero
  have hEn : tkPvEnergyOf
      { usefulLife := 1, overnightCost := 100, constructionTime := 0
        costOfEquity := 100, costOfDebt := 0, targetGearing := 0, fuelCost := 0
        omCost := 0, loadHours := 1000, decommissioningCost := 0
        rabProportion := 0, inflationRate := 0, extensionCapEx := 0 } false
      = 1 / Real.sqrt 2 := by
    unfold tkPvEnergyOf
    rw [hTL, Finset.sum_range_one, hdfk 0]
    unfold annualMwhOf
    norm_num
  have hsale : (computeTurnkeyLcoe
      { usefulLife := 1, overnightCost := 100, constructionTime := 0
        costOfEquity := 100, costOfDebt := 0, targetGearing := 0, fuelCost := 0
        omCost := 0, loadHours := 1000, decommissioningCost := 0
        rabProportion := 0, inflationRate := 0, extensionCapEx := 0 } 100 0 1
      false).developerSalePrice = some (100 * Real.sqrt 2) := by
    unfold computeTurnkeyLcoe
    rw [if_neg hM]
    dsimp only
    rw [if_neg (by rw [hEn]; push_neg; positivity : ¬tkPvEnergyOf
      { usefulLife := 1, overnightCost := 100, constructionTime := 0
        costOfEquity := 100, costOfDebt := 0, targetGearing := 0, fuelCost := 0
        omCost := 0, loadHours := 1000, decommissioningCost := 0
        rabProportion := 0, inflationRate := 0, extensionCapEx := 0 } false ≤ 0)]
    dsimp only
    unfold annualPaymentOf
    rw [if_pos hApos, hA, hnet, hnT]
    rw [one_div, div_inv_eq_mul]
    norm_num
  rw [hsale]
  intro h
  rw [Option.some.injEq] at h
  rw [hdfk 0, hdfk 1, hdfk 2] at h
  have hsum : 1 / ((2 : ℝ) ^ (0 : ℕ) * Real.sqrt 2) + 1 / (2 ^ (1 : ℕ) * Real.sqrt 2)
      + 1 / (2 ^ (2 : ℕ) * Real.sqrt 2) = 7 / (4 * Real.sqrt 2) := by
    field_simp
    ring
  rw [hsum, div_div_eq_mul_div, hnet] at h
  linarith [hs2]

/-- Witness for the amended C1 at a concrete one-year debt-only build. -/
theorem C1_capex_ordering_witness :
    (buildConstructionPhase
      { usefulLife := 1, overnightCost := 100, constructionTime := 1
        costOfEquity := 100, costOfDebt := 0, targetGearing := 0, fuelCost := 0
        omCost := 0, loadHours := 1000, decommissioningCost := 0
        rabProportion := 0, inflationRate := 0, extensionCapEx := 0 }
      InflationMode.dynamic IdcMode.debtOnly 0).pvCapexSOC
    < (buildConstructionPhase
      { usefulLife := 1, overnightCost := 100, constructionTime := 1
        costOfEquity := 100, costOfDebt := 0, targetGearing := 0, fuelCost := 0
        omCost := 0, loadHours := 1000, decommissioningCost := 0
        rabProportion := 0, inflationRate := 0, extensionCapEx := 0 }
      InflationMode.dynamic IdcMode.debtOnly 0).fvEconomicCOD := by
  have hTc : TcOf
      { usefulLife := 1, overnightCost := 100, constructionTime := 1
        costOfEquity := 100, costOfDebt := 0, targetGearing := 0, fuelCost := 0
        omCost := 0, loadHours := 1000, decommissioningCost := 0
        rabProportion := 0, inflationRate := 0, extensionCapEx := 0 } = 1 := by
    unfold TcOf
    rw [round_one]
    rfl
  refine (C1_capex_ordering _ InflationMode.dynamic IdcMode.debtOnly 0
    (by rw [hTc]; exact one_ne_zero) ?_ (by norm_num) ?_ ?_ ?_ le_rfl zero_le_one).1
  · unfold calcNominalWacc gearingOf piOf
    norm_num
  · unfold piOf
    norm_num
  · unfold idcRate calcNominalWacc piOf
    norm_num
  · unfold idcRate calcNominalWacc gearingOf piOf
    norm_num

/-- Counterexample to C6 as stated: with zero rates (WACC = 0) every
discount factor is 1, the two halves of a two-year life have equal energy PV,
and `totalLcoe` IS exactly the arithmetic mean of `halfLcoe1 = 100` and
`halfLcoe2 = 0` -- refuting the "never the arithmetic mean" part. -/
theorem C6_counterexample :
    (calculateLcoe exDualFlat 3 advDualOnly none).halfLcoe1 = some 100
    ∧ (calculateLcoe exDualFlat 3 advDualOnly none).halfLcoe2 = some 0
    ∧ (calculateLcoe exDualFlat 3 advDualOnly none).totalLcoe = (100 + 0) / 2 := by
  have hTL : TLof exDualFlat = 2 := by
    unfold TLof exDualFlat
    rw [show ((2 : ℝ)) = ((2 : ℕ) : ℝ) by norm_num, round_natCast]
    rfl
  have hTc : TcOf exDualFlat = 0 := by
    unfold TcOf exDualFlat
    rw [round_zero]
    rfl
  have hM : annualMwhOf exDualFlat = 1 := by
    unfold annualMwhOf exDualFlat
    norm_num
  have hdf : ∀ k, calculateDf exDualFlat 3 advDualOnly k = 1 := by
    intro k
    unfold calculateDf
    rw [show decliningOf 3 advDualOnly = false from rfl]
    rw [buildDfArray, dfCumProduct_false, getOpW_false]
    unfold baseWaccOf calcNominalWacc gearingOf piOf exDualFlat
    norm_num
  have hAD : annualDecomOf exDualFlat = 0 := by
    unfold annualDecomOf futureDecomCostOf exDualFlat
    dsimp only
    split_ifs <;> norm_num
  have hcon : buildConstructionPhase exDualFlat (inflationModeOf 3) (idcModeOf 3)
      (rabFracOf 3 advDualOnly)
      = { pvOccSOC := 100, pvFinancingSOC := 0, pvCapexSOC := 100
          fvEconomicCOD := 100, occRatioCOD := 1, pvSurchargedIdcSOC := 0
          fvSurchargedCOD := 0 } := by
    unfold buildConstructionPhase
    rw [if_pos hTc]
    rfl
  have hN1 : N1of exDualFlat = 1 := by
    unfold N1of
    rw [hTL]
  have hE1 : pvE1of exDualFlat (calculateDf exDualFlat 3 advDualOnly) = 1 := by
    unfold pvE1of
    rw [hTL, hN1, Finset.sum_range_succ, Finset.sum_range_one, hdf 0, hdf 1, hM]
    norm_num
  have hE2 : pvE2of exDualFlat (calculateDf exDualFlat 3 advDualOnly) = 1 := by
    unfold pvE2of
    rw [hTL, hN1, Finset.sum_range_succ, Finset.sum_range_one, hdf 0, hdf 1, hM]
    norm_num
  have hO1 : pvO1of exDualFlat (calculateDf exDualFlat 3 advDualOnly) = 0 := by
    unfold pvO1of exDualFlat
    norm_num
  have hO2 : pvO2of exDualFlat (calculateDf exDualFlat 3 advDualOnly) = 0 := by
    unfold pvO2of exDualFlat
    norm_num
  have hF1 : pvF1of exDualFlat (calculateDf exDualFlat 3 advDualOnly) = 0 := by
    unfold pvF1of exDualFlat
    norm_num
  have hF2 : pvF2of exDualFlat (calculateDf exDualFlat 3 advDualOnly) = 0 := by
    unfold pvF2of exDualFlat
    norm_num
  have hD1 : pvD1of exDualFlat (calculateDf exDualFlat 3 advDualOnly) = 0 := by
    unfold pvD1of
    rw [hAD]
    norm_num
  have hD2 : pvD2of exDualFlat (calculateDf exDualFlat 3 advDualOnly) = 0 := by
    unfold pvD2of
    rw [hAD]
    norm_num
  have hmain : calculateLcoe exDualFlat 3 advDualOnly none
      = computeCoreLcoe exDualFlat 100 0 0 (calculateDf exDualFlat 3 advDualOnly) true := by
    unfold calculateLcoe
    dsimp only
    rw [hcon]
    rw [if_neg (by simp [advDualOnly] : ¬((3 : ℕ) = 3 ∧ advDualOnly.turnkey = true))]
    rfl
  rw [hmain]
  unfold computeCoreLcoe
  rw [if_neg (by rw [hM, hTL]; norm_num)]
  rw [if_neg (by simp : ¬(true = false))]
  dsimp only
  rw [hE1, hE2, hO1, hO2, hF1, hF2, hD1, hD2]
  rw [if_neg (by norm_num : ¬((1 : ℝ) + 1 ≤ 0))]
  dsimp only
  norm_num

end
